import Mathlib

/-! # libgladdb: the backend dispatcher and result model of `src/db.c`

A shallow embedding of the dispatch layer and the list utilities of `db.c`,
and proofs about them.

Modelling conventions.

* A C string is a `String`; `strcmp(a, b) == 0` is `a = b`.
* A `NULL`-terminated linked list (`keyval_t`, `field_t`, `row_t`) is a `List`
  of its nodes without the `next` link.
* The connection handle `db->conn` is an `Option Nat`: `none` is `NULL`.
* The descriptor pointer handed to a dispatcher is a `Ptr`: `Ptr.null` is
  `NULL`, `Ptr.obj` addresses the descriptor object held in `Mem.db`.
* The backend drivers (`db_connect_pg`, `db_exec_sql_my`, ...) live in other
  files; they are taken as the parameter `Drivers`. A driver reads and writes
  the descriptor, the two error globals and an arbitrary outside world `ω`.
* `Mem.trace` lists the driver calls made, oldest first, with their arguments.
  `Mem.log` lists the diagnostics written. Drivers see neither.
* A counter of C type `int` is an `Int`; incrementing it at `INT_MAX` is
  undefined behaviour, and so is reading through `NULL`: the result is `none`.
* The macros `_NLDAP`, `_NMY`, `_NPG`, `_NTDS`, `_NLMDB` compile a backend out;
  `Build` says which backends are compiled in.
-/

namespace Gladdb

/-- The backends `db.c` can dispatch to, one per type tag. -/
inductive Backend where
  | ldap
  | my
  | pg
  | tds
  | lmdb
  deriving DecidableEq, Repr

/-- The type tag that selects a backend. -/
def Backend.tag : Backend → String
  | .ldap => "ldap"
  | .my => "my"
  | .pg => "pg"
  | .tds => "tds"
  | .lmdb => "lmdb"

/-- Which backends are compiled in: `ldap` is true when `_NLDAP` is not
defined, and so on. -/
structure Build where
  ldap : Bool
  my : Bool
  pg : Bool
  tds : Bool
  lmdb : Bool
  deriving DecidableEq, Repr

/-- The default build: no `_N...` macro defined. -/
def Build.full : Build := ⟨true, true, true, true, true⟩

/-- The connection descriptor `db_t`, without its `next` link. The field
`alias` of the source is `alias_` here. -/
structure db_t where
  alias_ : String
  type : String
  host : String
  db : String
  user : String
  pass : String
  conn : Option Nat
  deriving DecidableEq, Repr

/-- A key-value pair `keyval_t`, without its `next` link. -/
structure keyval_t where
  key : String
  value : String
  deriving DecidableEq, Repr

/-- A field `field_t` of a row, without its `next` link. -/
structure field_t where
  fname : String
  fvalue : String
  deriving DecidableEq, Repr

/-- A result row `row_t`, without its `next` link. -/
structure row_t where
  fields : List field_t
  deriving DecidableEq, Repr

/-- A descriptor pointer: `NULL`, or the address of the descriptor in memory. -/
inductive Ptr where
  | null
  | obj
  deriving DecidableEq, Repr

/-- Where a diagnostic goes. -/
inductive Sink where
  | syslog_err
  | syslog_debug
  | stderr
  deriving DecidableEq, Repr

/-- One call of a backend driver function, with the arguments it was given. -/
inductive Call where
  | connect (b : Backend)
  | create (b : Backend)
  | disconnect (b : Backend)
  | exec_sql (b : Backend) (sql : String)
  | fetch_all (b : Backend) (sql : String) (filter : List field_t)
  | insert (b : Backend) (resource : String) (data : List keyval_t)
  deriving DecidableEq, Repr

/-- What a driver shares with the dispatcher besides the descriptor: the
globals `dberrcode` and `dberror`, and the world outside. -/
structure Env (ω : Type) where
  dberrcode : Option String
  dberror : Option String
  world : ω

/-- What a driver call leaves behind: its return value, the descriptor and the
environment. -/
structure DrvRet (ω : Type) where
  rval : Int
  db : db_t
  env : Env ω

/-- What a fetch driver leaves behind: as `DrvRet`, and the two out-parameters
`*rows` and `*rowc`. -/
structure FetchRet (ω : Type) where
  rval : Int
  db : db_t
  rows : List row_t
  rowc : Int
  env : Env ω

/-- The backend driver functions, which are not part of `db.c`.
`connect b` is `db_connect_<b>`, `disconnect b` is `db_disconnect_<b>`,
`exec_sql b` is `db_exec_sql_<b>` (called for `pg`, `my`, `tds` only),
`fetch_all b` is `db_fetch_all_<b>`, `insert b` is `db_insert_<b>` (called for
`ldap`, `lmdb` only) and `create b` is `db_create_<b>` (called for `pg` only). -/
structure Drivers (ω : Type) where
  connect : Backend → db_t → Env ω → DrvRet ω
  create : Backend → db_t → Env ω → DrvRet ω
  disconnect : Backend → db_t → Env ω → DrvRet ω
  exec_sql : Backend → db_t → String → Env ω → DrvRet ω
  fetch_all : Backend → db_t → String → List field_t → List row_t → Int → Env ω → FetchRet ω
  insert : Backend → db_t → String → List keyval_t → Env ω → DrvRet ω

/-- The memory a dispatcher call runs on. -/
structure Mem (ω : Type) where
  db : db_t
  env : Env ω
  trace : List Call
  log : List (Sink × String)

/-- What a dispatcher call returns: its return value and the memory after. -/
structure Ret (ω : Type) where
  rval : Int
  mem : Mem ω

variable {ω : Type}

/-- The two assignments `dberrcode = NULL; dberror = NULL;`. -/
def Mem.reset_error (m : Mem ω) : Mem ω :=
  { m with env := { m.env with dberrcode := none, dberror := none } }

/-- A diagnostic written by `syslog` or `fprintf(stderr, ...)`. -/
def Mem.report (m : Mem ω) (k : Sink) (msg : String) : Mem ω :=
  { m with log := m.log ++ [(k, msg)] }

/-- A call `return f(db)` of a driver: the call is recorded, the driver's
return value is returned, and the descriptor and environment are the driver's. -/
def Mem.delegate (m : Mem ω) (c : Call) (r : DrvRet ω) : Ret ω :=
  ⟨r.rval, { m with db := r.db, env := r.env, trace := m.trace ++ [c] }⟩

/-- The function `db_connect` (lines 60-98). -/
def db_connect (cfg : Build) (B : Drivers ω) (db : Ptr) (m : Mem ω) : Ret ω :=
  let m := m.reset_error
  match db with
  | .null => ⟨-1, m.report .syslog_err "No database info supplied to db_connect()\n"⟩
  | .obj =>
    if cfg.ldap = true ∧ m.db.type = "ldap" then
      m.delegate (.connect .ldap) (B.connect .ldap m.db m.env)
    else if cfg.my = true ∧ m.db.type = "my" then
      m.delegate (.connect .my) (B.connect .my m.db m.env)
    else if cfg.pg = true ∧ m.db.type = "pg" then
      m.delegate (.connect .pg) (B.connect .pg m.db m.env)
    else if cfg.tds = true ∧ m.db.type = "tds" then
      m.delegate (.connect .tds) (B.connect .tds m.db m.env)
    else if cfg.lmdb = true ∧ m.db.type = "lmdb" then
      m.delegate (.connect .lmdb) (B.connect .lmdb m.db m.env)
    else
      ⟨-1, m.report .syslog_err
        ("Invalid database type '" ++ m.db.type ++ "' passed to db_connect()\n")⟩

/-- The function `db_create` (lines 104-125). With `_NPG` defined the `else`
of line 119 belongs to the `if (db == NULL)` of line 109, so the message is
printed and 0 returned for every type. -/
def db_create (cfg : Build) (B : Drivers ω) (db : Ptr) (m : Mem ω) : Ret ω :=
  let m := m.reset_error
  match db with
  | .null => ⟨-1, m.report .stderr "No database info supplied to db_create()\n"⟩
  | .obj =>
    if cfg.pg = true ∧ m.db.type = "pg" then
      m.delegate (.create .pg) (B.create .pg m.db m.env)
    else
      ⟨0, m.report .stderr
        ("Invalid database type '" ++ m.db.type ++ "' passed to db_create()\n")⟩

/-- The function `db_disconnect` (lines 131-173). -/
def db_disconnect (cfg : Build) (B : Drivers ω) (db : Ptr) (m : Mem ω) : Ret ω :=
  let m := m.reset_error
  match db with
  | .null => ⟨-1, m.report .stderr "No database info supplied to db_disconnect()\n"⟩
  | .obj =>
    if m.db.conn = none then
      ⟨0, m⟩
    else if cfg.ldap = true ∧ m.db.type = "ldap" then
      m.delegate (.disconnect .ldap) (B.disconnect .ldap m.db m.env)
    else if cfg.my = true ∧ m.db.type = "my" then
      m.delegate (.disconnect .my) (B.disconnect .my m.db m.env)
    else if cfg.pg = true ∧ m.db.type = "pg" then
      m.delegate (.disconnect .pg) (B.disconnect .pg m.db m.env)
    else if cfg.tds = true ∧ m.db.type = "tds" then
      m.delegate (.disconnect .tds) (B.disconnect .tds m.db m.env)
    else if cfg.lmdb = true ∧ m.db.type = "lmdb" then
      m.delegate (.disconnect .lmdb) (B.disconnect .lmdb m.db m.env)
    else
      ⟨-1, m.report .stderr
        ("Invalid database type '" ++ m.db.type ++ "' passed to db_disconnect()\n")⟩

/-- Lines 201-224 of `db_exec_sql`: the dispatch that follows the connect
step, `isconn` being the local that says whether this call connected. -/
def db_exec_sql_dispatch (cfg : Build) (B : Drivers ω) (sql : String) (isconn : Int)
    (m : Mem ω) : Ret ω :=
  if cfg.pg = true ∧ m.db.type = "pg" then
    m.delegate (.exec_sql .pg sql) (B.exec_sql .pg m.db sql m.env)
  else if cfg.my = true ∧ m.db.type = "my" then
    m.delegate (.exec_sql .my sql) (B.exec_sql .my m.db sql m.env)
  else if cfg.tds = true ∧ m.db.type = "tds" then
    m.delegate (.exec_sql .tds sql) (B.exec_sql .tds m.db sql m.env)
  else
    let m1 := m.report .stderr
      ("Invalid database type '" ++ m.db.type ++ "' passed to db_exec_sql()\n")
    -- leave the connection how we found it
    if isconn = 1 then ⟨0, (db_disconnect cfg B .obj m1).mem⟩ else ⟨0, m1⟩

/-- The function `db_exec_sql` (lines 180-225). -/
def db_exec_sql (cfg : Build) (B : Drivers ω) (db : Ptr) (sql : String) (m : Mem ω) : Ret ω :=
  let m := m.reset_error
  match db with
  | .null => ⟨-1, m.report .stderr "No database info supplied to db_exec_sql()\n"⟩
  | .obj =>
    -- connect if we aren't already
    if m.db.conn = none then
      let c := db_connect cfg B .obj m
      if c.rval ≠ 0 then
        ⟨-1, c.mem.report .syslog_err ("Failed to connect to db on " ++ c.mem.db.host)⟩
      else
        db_exec_sql_dispatch cfg B sql 1 c.mem
    else
      db_exec_sql_dispatch cfg B sql 0 m

/-- What a call of `db_fetch_all` returns: its return value, the two
out-parameters `*rows` and `*rowc`, and the memory after. -/
structure FetchAllRet (ω : Type) where
  rval : Int
  rows : List row_t
  rowc : Int
  mem : Mem ω

/-- A call `return db_fetch_all_<b>(db, sql, filter, rows, rowc)`. -/
def Mem.delegate_fetch (m : Mem ω) (c : Call) (r : FetchRet ω) : FetchAllRet ω :=
  ⟨r.rval, r.rows, r.rowc, { m with db := r.db, env := r.env, trace := m.trace ++ [c] }⟩

/-- The function `db_fetch_all` (lines 235-274); `rows` and `rowc` are the
contents of the two out-parameters at entry. -/
def db_fetch_all (cfg : Build) (B : Drivers ω) (db : Ptr) (sql : String)
    (filter : List field_t) (rows : List row_t) (rowc : Int) (m : Mem ω) : FetchAllRet ω :=
  let m := m.reset_error
  match db with
  | .null =>
    ⟨-1, rows, rowc, m.report .syslog_err "No database info supplied to db_fetch_all()\n"⟩
  | .obj =>
    if cfg.pg = true ∧ m.db.type = "pg" then
      m.delegate_fetch (.fetch_all .pg sql filter) (B.fetch_all .pg m.db sql filter rows rowc m.env)
    else if cfg.my = true ∧ m.db.type = "my" then
      m.delegate_fetch (.fetch_all .my sql filter) (B.fetch_all .my m.db sql filter rows rowc m.env)
    else if cfg.tds = true ∧ m.db.type = "tds" then
      m.delegate_fetch (.fetch_all .tds sql filter)
        (B.fetch_all .tds m.db sql filter rows rowc m.env)
    else if cfg.ldap = true ∧ m.db.type = "ldap" then
      m.delegate_fetch (.fetch_all .ldap sql filter)
        (B.fetch_all .ldap m.db sql filter rows rowc m.env)
    else if cfg.lmdb = true ∧ m.db.type = "lmdb" then
      m.delegate_fetch (.fetch_all .lmdb sql filter)
        (B.fetch_all .lmdb m.db sql filter rows rowc m.env)
    else
      ⟨-1, rows, rowc, m.report .syslog_err
        ("Invalid database type '" ++ m.db.type ++ "' passed to db_fetch_all()\n")⟩

/-- The quote character `quot` of `db_insert_sql` (lines 329 and 336-338):
the single quote (code 39), and the double quote (code 34) for type `my`. -/
def db_insert_sql_quot (type : String) : Char :=
  if type = "my" then Char.ofNat 34 else Char.ofNat 39

/-- The conversion `%s` of the printf family of glibc: a `NULL` string is
printed as `(null)`. -/
def fmt_s : Option String → String
  | none => "(null)"
  | some s => s

/-- The loop of lines 341-357 of `db_insert_sql` on the pair `(flds, vals)`,
which is `none` while both are `NULL` (they are assigned together). The first
pair gives `"%s"` and `"%1$c%2$s%1$c"`, a later one `"%s,%s"` and
`"%2$s,%1$c%3$s%1$c"`. -/
def db_insert_sql_loop (quot : Char) :
    Option (String × String) → List keyval_t → Option (String × String)
  | acc, [] => acc
  | none, kv :: data =>
    db_insert_sql_loop quot
      (some (kv.key, String.singleton quot ++ kv.value ++ String.singleton quot)) data
  | some (flds, vals), kv :: data =>
    db_insert_sql_loop quot
      (some (flds ++ "," ++ kv.key,
        vals ++ "," ++ String.singleton quot ++ kv.value ++ String.singleton quot)) data

/-- The statement `sql` that `db_insert_sql` builds (lines 329-359):
`"INSERT INTO %s (%s) VALUES (%s)"` of `resource`, `flds` and `vals`. -/
def db_insert_sql_stmt (type resource : String) (data : List keyval_t) : String :=
  let r := db_insert_sql_loop (db_insert_sql_quot type) none data
  "INSERT INTO " ++ resource ++ " (" ++ fmt_s (r.map Prod.fst) ++ ") VALUES ("
    ++ fmt_s (r.map Prod.snd) ++ ")"

/-- The lines `"%s = %s\n"` that the loop of `db_insert_sql` prints on stderr
(line 342), one per pair. -/
def db_insert_sql_echo (data : List keyval_t) : List (Sink × String) :=
  data.map (fun kv => (Sink.stderr, kv.key ++ " = " ++ kv.value ++ "\n"))

/-- The function `db_insert_sql` (lines 322-380). It dereferences `db` without
a check, so it is given the descriptor in memory, not a pointer. -/
def db_insert_sql (cfg : Build) (B : Drivers ω) (resource : String) (data : List keyval_t)
    (m : Mem ω) : Ret ω :=
  let m := m.reset_error
  let sql := db_insert_sql_stmt m.db.type resource data
  let m := { m with log := m.log ++ db_insert_sql_echo data }
  let m := m.report .syslog_debug sql
  if m.db.conn = none then
    let c := db_connect cfg B .obj m
    if c.rval ≠ 0 then
      ⟨-1, c.mem.report .syslog_err ("Failed to connect to db on " ++ c.mem.db.host)⟩
    else
      let e := db_exec_sql cfg B .obj sql c.mem
      -- leave the connection how we found it
      ⟨e.rval, (db_disconnect cfg B .obj e.mem).mem⟩
  else
    db_exec_sql cfg B .obj sql m

/-- The function `db_insert` (lines 283-313). The SQL branch is compiled when
one of `pg`, `my`, `tds` is. -/
def db_insert (cfg : Build) (B : Drivers ω) (db : Ptr) (resource : String)
    (data : List keyval_t) (m : Mem ω) : Ret ω :=
  let m := m.reset_error
  match db with
  | .null => ⟨-1, m.report .syslog_err "No database info supplied to db_insert()\n"⟩
  | .obj =>
    if (cfg.pg = true ∨ cfg.my = true ∨ cfg.tds = true) ∧
        (m.db.type = "pg" ∨ m.db.type = "my" ∨ m.db.type = "tds") then
      db_insert_sql cfg B resource data m
    else if cfg.ldap = true ∧ m.db.type = "ldap" then
      m.delegate (.insert .ldap resource data) (B.insert .ldap m.db resource data m.env)
    else if cfg.lmdb = true ∧ m.db.type = "lmdb" then
      m.delegate (.insert .lmdb resource data) (B.insert .lmdb m.db resource data m.env)
    else
      ⟨-1, m.report .syslog_err
        ("Invalid database type '" ++ m.db.type ++ "' passed to db_insert()\n")⟩

/-! ## The result model: lookups and counting -/

/-- The two assignments `dberrcode = NULL; dberror = NULL;` on the
environment. -/
def Env.reset_error (e : Env ω) : Env ω :=
  { e with dberrcode := none, dberror := none }

/-- The loop of `db_field` (lines 393-398) over the fields of the row. -/
def db_field_loop : List field_t → String → Option field_t
  | [], _ => none
  | f :: next, fname => if fname = f.fname then some f else db_field_loop next fname

/-- The function `db_field` (lines 387-401): the field found, `none` for the
`NULL` of line 400, and the environment after the call. -/
def db_field (row : row_t) (fname : String) (e : Env ω) : Option field_t × Env ω :=
  (db_field_loop row.fields fname, e.reset_error)

/-- What a call of `db_get` leaves behind: the descriptor found (`none` for
`NULL`), the collection as it is in memory after the call, and the
environment. -/
structure GetRet (ω : Type) where
  found : Option db_t
  dbs : List db_t
  env : Env ω

/-- The loop of `db_get` (lines 442-447) over the collection. -/
def db_get_loop : List db_t → String → Option db_t
  | [], _ => none
  | db :: next, alias_ => if alias_ = db.alias_ then some db else db_get_loop next alias_

/-- The function `db_get` (lines 435-450). It only reads the collection. -/
def db_get (dbs : List db_t) (alias_ : String) (e : Env ω) : GetRet ω :=
  ⟨db_get_loop dbs alias_, dbs, e.reset_error⟩

/-- The largest value of the C type `int`, which has 32 bits. -/
def INT_MAX : Int := 2147483647

/-- The increment `x++` of an `int`: at `INT_MAX` it overflows, which is
undefined behaviour, `none` here. -/
def int_incr (x : Int) : Option Int :=
  if x < INT_MAX then some (x + 1) else none

/-- The loop of `count_keyvals` (lines 502-509) on the local `last` and the
two counters `*total` and `*unique`. -/
def count_keyvals_loop : String → List keyval_t → Int → Int → Option (Int × Int)
  | _, [], total, unique => some (total, unique)
  | last, kv :: next, total, unique =>
    if last ≠ kv.key then
      (int_incr unique).bind fun unique1 =>
        (int_incr total).bind fun total1 =>
          count_keyvals_loop kv.key next total1 unique1
    else
      (int_incr total).bind fun total1 =>
        count_keyvals_loop last next total1 unique

/-- What a call of `count_keyvals` leaves behind: its return value, the two
counters `*total` and `*unique`, and the environment. -/
structure CountRet (ω : Type) where
  rval : Int
  total : Int
  unique : Int
  env : Env ω

/-- The function `count_keyvals` (lines 495-511); `total` and `unique` are
the contents of the two counters at entry. The result is `none` when the
behaviour is undefined: on the empty sequence, where line 497 reads `kv->key`
through `NULL`, and when a counter overflows. -/
def count_keyvals (kv : List keyval_t) (total unique : Int) (e : Env ω) :
    Option (CountRet ω) :=
  match kv with
  | [] => none
  | first :: _ =>
    (count_keyvals_loop first.key kv total 1).map fun r =>
      ⟨r.1, r.1, r.2, e.reset_error⟩


/-! ## Vocabulary of the statements -/

/-- The backend that `db_connect` and `db_disconnect` select for a type tag:
the chain of `strcmp` tests of lines 69-93 and 144-168. -/
def connect_backend (cfg : Build) (type : String) : Option Backend :=
  if cfg.ldap = true ∧ type = "ldap" then some .ldap
  else if cfg.my = true ∧ type = "my" then some .my
  else if cfg.pg = true ∧ type = "pg" then some .pg
  else if cfg.tds = true ∧ type = "tds" then some .tds
  else if cfg.lmdb = true ∧ type = "lmdb" then some .lmdb
  else none

/-- The backend that `db_exec_sql` selects for a type tag: the chain of
`strcmp` tests of lines 201-215. -/
def exec_backend (cfg : Build) (type : String) : Option Backend :=
  if cfg.pg = true ∧ type = "pg" then some .pg
  else if cfg.my = true ∧ type = "my" then some .my
  else if cfg.tds = true ∧ type = "tds" then some .tds
  else none

/-- A type tag is known when it is one of the five backend tags. -/
def known_type (type : String) : Prop :=
  type = "ldap" ∨ type = "my" ∨ type = "pg" ∨ type = "tds" ∨ type = "lmdb"

instance (type : String) : Decidable (known_type type) := by
  unfold known_type
  infer_instance

/-- The driver's connect sets the handle on success: after a call that
returns 0 the handle is not `NULL`, after a failed call the handle is as it
was, and the type tag is never rewritten. -/
def Drivers.connect_sets_handle (B : Drivers ω) : Prop :=
  ∀ b d e, ((B.connect b d e).rval = 0 → (B.connect b d e).db.conn ≠ none)
    ∧ ((B.connect b d e).rval ≠ 0 → (B.connect b d e).db.conn = d.conn)
    ∧ (B.connect b d e).db.type = d.type

/-- The driver's disconnect clears the handle. -/
def Drivers.disconnect_clears_handle (B : Drivers ω) : Prop :=
  ∀ b d e, (B.disconnect b d e).db.conn = none

/-- The driver's exec leaves the handle unchanged, and does not rewrite the
type tag. -/
def Drivers.exec_keeps_handle (B : Drivers ω) : Prop :=
  ∀ b d sql e, (B.exec_sql b d sql e).db.conn = d.conn
    ∧ (B.exec_sql b d sql e).db.type = d.type

/-- The number of positions `i ≥ 1` of a list of keys whose key differs from
the key at position `i - 1`. -/
def adjacent_changes (keys : List String) : Nat :=
  (keys.zip keys.tail).countP (fun p => decide (p.1 ≠ p.2))

/-- All occurrences of each key are contiguous: a key found at two positions
is found at every position between them. -/
def contiguous (keys : List String) : Prop :=
  ∀ i j k : Nat, i < j → j < k →
    ∀ x : String, keys[i]? = some x → keys[k]? = some x → keys[j]? = some x

/-- An environment for examples: no error recorded, a world without state. -/
def sample_env : Env Unit :=
  ⟨none, none, ()⟩

/-- A sequence of pairs for examples, with the given keys and empty values. -/
def sample_keyvals (keys : List String) : List keyval_t :=
  keys.map (fun k => ⟨k, ""⟩)


/-- The driver calls of the SQL insert path for the statement `sql`: a
connect, a disconnect, or an exec that is handed `sql`. -/
def Call.on_sql_path (sql : String) (c : Call) : Prop :=
  (∃ b, c = .connect b) ∨ (∃ b, c = .disconnect b) ∨ (∃ b, c = .exec_sql b sql)


/-- A driver set for examples, on a world without state: connect stores the
handle 1, disconnect clears the handle, and exec, create, insert and fetch
touch nothing; every function returns `rv`. -/
def sample_drivers (rv : Int) : Drivers Unit where
  connect := fun _ d e => ⟨rv, { d with conn := some 1 }, e⟩
  create := fun _ d e => ⟨rv, d, e⟩
  disconnect := fun _ d e => ⟨rv, { d with conn := none }, e⟩
  exec_sql := fun _ d _ e => ⟨rv, d, e⟩
  fetch_all := fun _ d _ _ rows rowc e => ⟨rv, d, rows, rowc, e⟩
  insert := fun _ d _ _ e => ⟨rv, d, e⟩

/-- A driver set for examples whose connect and disconnect succeed as in
`sample_drivers 0` and whose exec fails with -1. -/
def failing_exec_drivers : Drivers Unit :=
  { sample_drivers 0 with exec_sql := fun _ d _ e => ⟨-1, d, e⟩ }

/-- A driver set for examples whose connect fails with -1 and leaves the
descriptor alone. -/
def failing_connect_drivers : Drivers Unit :=
  { sample_drivers 0 with connect := fun _ d e => ⟨-1, d, e⟩ }

/-- A driver set for examples whose connect and disconnect succeed as in
`sample_drivers 0`, whose exec returns `exec_rv` and whose insert returns
`insert_rv`. -/
def result_drivers (exec_rv insert_rv : Int) : Drivers Unit :=
  { sample_drivers 0 with
    exec_sql := fun _ d _ e => ⟨exec_rv, d, e⟩
    insert := fun _ d _ _ e => ⟨insert_rv, d, e⟩ }


/-- A descriptor for examples, with the given type tag and handle. -/
def sample_db (type : String) (conn : Option Nat) : db_t :=
  ⟨"main", type, "localhost", "gladd", "user", "secret", conn⟩

/-- A memory for examples: the given descriptor, no error recorded, no call
made and nothing logged yet. -/
def sample_mem (d : db_t) : Mem Unit :=
  ⟨d, ⟨none, none, ()⟩, [], []⟩

/-- The memory in which `db_insert_sql` reaches its connect step (line 363):
the error globals are reset, and the pairs and the statement are logged. -/
def db_insert_sql_mem (resource : String) (data : List keyval_t) (m : Mem ω) : Mem ω :=
  { m.reset_error with log := m.reset_error.log ++ db_insert_sql_echo data }.report
    .syslog_debug (db_insert_sql_stmt m.db.type resource data)


/-! ## How the dispatchers select a backend -/

/-- What `db_connect` does on a descriptor: the selected driver is called on
the descriptor with the error globals reset, or -1 is returned. -/
theorem db_connect_obj (cfg : Build) (B : Drivers ω) (m : Mem ω) :
    db_connect cfg B .obj m
      = match connect_backend cfg m.db.type with
        | some b => m.reset_error.delegate (.connect b) (B.connect b m.db m.reset_error.env)
        | none => ⟨-1, m.reset_error.report .syslog_err
            ("Invalid database type '" ++ m.db.type ++ "' passed to db_connect()\n")⟩ := by
  unfold db_connect connect_backend
  simp only [Mem.reset_error]
  split_ifs <;> rfl

/-- What `db_disconnect` does on a descriptor: nothing when the handle is
`NULL`, else the selected driver is called, or -1 is returned. -/
theorem db_disconnect_obj (cfg : Build) (B : Drivers ω) (m : Mem ω) :
    db_disconnect cfg B .obj m
      = if m.db.conn = none then ⟨0, m.reset_error⟩
        else match connect_backend cfg m.db.type with
          | some b =>
            m.reset_error.delegate (.disconnect b) (B.disconnect b m.db m.reset_error.env)
          | none => ⟨-1, m.reset_error.report .stderr
              ("Invalid database type '" ++ m.db.type ++ "' passed to db_disconnect()\n")⟩ := by
  unfold db_disconnect connect_backend
  simp only [Mem.reset_error]
  split_ifs <;> rfl

/-- What the dispatch of `db_exec_sql` does: the selected driver is called
and its result returned at once, or the message is printed, the connection
closed if this call opened it, and 0 returned. -/
theorem db_exec_sql_dispatch_eq (cfg : Build) (B : Drivers ω) (sql : String) (isconn : Int)
    (m : Mem ω) :
    db_exec_sql_dispatch cfg B sql isconn m
      = match exec_backend cfg m.db.type with
        | some b => m.delegate (.exec_sql b sql) (B.exec_sql b m.db sql m.env)
        | none =>
          if isconn = 1 then
            ⟨0, (db_disconnect cfg B .obj (m.report .stderr
              ("Invalid database type '" ++ m.db.type ++ "' passed to db_exec_sql()\n"))).mem⟩
          else
            ⟨0, m.report .stderr
              ("Invalid database type '" ++ m.db.type ++ "' passed to db_exec_sql()\n")⟩ := by
  unfold db_exec_sql_dispatch exec_backend
  split_ifs <;> rfl

/-- An unknown type tag selects no backend, whatever the build. -/
theorem connect_backend_unknown (cfg : Build) (type : String) (h : ¬ known_type type) :
    connect_backend cfg type = none := by
  unfold known_type at h
  unfold connect_backend
  simp only [not_or] at h
  simp [h.1, h.2.1, h.2.2.1, h.2.2.2.1, h.2.2.2.2]

/-- An unknown type tag selects no exec driver, whatever the build. -/
theorem exec_backend_unknown (cfg : Build) (type : String) (h : ¬ known_type type) :
    exec_backend cfg type = none := by
  unfold known_type at h
  unfold exec_backend
  simp only [not_or] at h
  simp [h.1, h.2.1, h.2.2.1, h.2.2.2.1, h.2.2.2.2]

/-- On a relational tag, `db_exec_sql` selects the backend that `db_connect`
selects. -/
theorem exec_backend_of_connect (cfg : Build) (type : String) (b : Backend)
    (ht : type = "pg" ∨ type = "my" ∨ type = "tds")
    (h : connect_backend cfg type = some b) : exec_backend cfg type = some b := by
  unfold connect_backend at h
  unfold exec_backend
  rcases ht with ht | ht | ht <;> subst ht <;> simp at h ⊢ <;> exact h

/-- On `ldap` and `lmdb`, `db_exec_sql` selects no backend. -/
theorem exec_backend_native (cfg : Build) (type : String)
    (ht : type = "ldap" ∨ type = "lmdb") : exec_backend cfg type = none := by
  unfold exec_backend
  rcases ht with ht | ht <;> subst ht <;> simp


/-! ## The statement built by `db_insert_sql` -/

/-- Once `flds` and `vals` are set, the loop appends to each a comma and the
next item: it is the accumulating loop of `String.intercalate`. -/
theorem db_insert_sql_loop_some (quot : Char) (data : List keyval_t) (flds vals : String) :
    db_insert_sql_loop quot (some (flds, vals)) data
      = some (String.intercalate.go flds "," (data.map (fun kv => kv.key)),
          String.intercalate.go vals "," (data.map (fun kv =>
            String.singleton quot ++ kv.value ++ String.singleton quot))) := by
  induction data generalizing flds vals with
  | nil => simp [db_insert_sql_loop, String.intercalate.go]
  | cons kv data ih =>
    simp [db_insert_sql_loop, String.intercalate.go, ih, String.append_assoc]

/-- On a non-empty payload the loop leaves the comma-joined keys and the
comma-joined quoted values. -/
theorem db_insert_sql_loop_none (quot : Char) (data : List keyval_t) (h : data ≠ []) :
    db_insert_sql_loop quot none data
      = some (",".intercalate (data.map (fun kv => kv.key)),
          ",".intercalate (data.map (fun kv =>
            String.singleton quot ++ kv.value ++ String.singleton quot))) := by
  cases data with
  | nil => exact absurd rfl h
  | cons kv data => simp [db_insert_sql_loop, db_insert_sql_loop_some, String.intercalate]

/-- C1: for every resource, non-empty payload and type tag, the statement
built by `db_insert_sql` is `INSERT INTO resource (k1,...,kn) VALUES (q v1 q,...,q vn q)`
with keys and values in payload order, values verbatim, and `q` the double
quote for tag `my` and the single quote for every other tag. -/
theorem db_insert_sql_stmt_exact (type resource : String) (data : List keyval_t)
    (h : data ≠ []) :
    db_insert_sql_stmt type resource data
      = "INSERT INTO " ++ resource ++ " ("
        ++ ",".intercalate (data.map (fun kv => kv.key))
        ++ ") VALUES ("
        ++ ",".intercalate (data.map (fun kv =>
            (if type = "my" then "\"" else "'") ++ kv.value
              ++ (if type = "my" then "\"" else "'")))
        ++ ")" := by
  have hq : String.singleton (db_insert_sql_quot type) = if type = "my" then "\"" else "'" := by
    unfold db_insert_sql_quot
    split <;> rfl
  simp only [db_insert_sql_stmt, db_insert_sql_loop_none _ _ h, Option.map_some', fmt_s, hq]

/-- C1, the two examples of the claim: payload `[(name, Alice), (age, 30)]`
and resource `users`, for a single-quote tag and for tag `my`. -/
theorem db_insert_sql_stmt_exact_witness :
    db_insert_sql_stmt "pg" "users" [⟨"name", "Alice"⟩, ⟨"age", "30"⟩]
        = "INSERT INTO users (name,age) VALUES ('Alice','30')"
    ∧ db_insert_sql_stmt "my" "users" [⟨"name", "Alice"⟩, ⟨"age", "30"⟩]
        = "INSERT INTO users (name,age) VALUES (\"Alice\",\"30\")" :=
  ⟨(db_insert_sql_stmt_exact "pg" "users" [⟨"name", "Alice"⟩, ⟨"age", "30"⟩]
      (by simp)).trans (by decide),
   (db_insert_sql_stmt_exact "my" "users" [⟨"name", "Alice"⟩, ⟨"age", "30"⟩]
      (by simp)).trans (by decide)⟩

/-! ## Control flow of `db_exec_sql` and `db_insert_sql` -/

/-- Resetting the error globals leaves the descriptor alone. -/
theorem reset_error_db (m : Mem ω) : m.reset_error.db = m.db := rfl

/-- What `db_exec_sql` does on a descriptor whose handle is not `NULL`: the
selected exec driver is called, or the message is printed and 0 returned. -/
theorem db_exec_sql_of_open (cfg : Build) (B : Drivers ω) (sql : String) (m : Mem ω)
    (h : m.db.conn ≠ none) :
    db_exec_sql cfg B .obj sql m
      = match exec_backend cfg m.db.type with
        | some b =>
          m.reset_error.delegate (.exec_sql b sql) (B.exec_sql b m.db sql m.reset_error.env)
        | none => ⟨0, m.reset_error.report .stderr
            ("Invalid database type '" ++ m.db.type ++ "' passed to db_exec_sql()\n")⟩ := by
  have hr : m.reset_error.db.conn ≠ none := h
  unfold db_exec_sql
  simp only [if_neg hr]
  simp only [db_exec_sql_dispatch_eq, reset_error_db]
  cases exec_backend cfg m.db.type <;> simp

/-- The control flow of `db_insert_sql` from its connect step on. -/
theorem db_insert_sql_eq (cfg : Build) (B : Drivers ω) (resource : String)
    (data : List keyval_t) (m : Mem ω) :
      db_insert_sql cfg B resource data m
        = if m.db.conn = none then
            if (db_connect cfg B .obj (db_insert_sql_mem resource data m)).rval ≠ 0 then
              ⟨-1, (db_connect cfg B .obj (db_insert_sql_mem resource data m)).mem.report
                .syslog_err ("Failed to connect to db on "
                  ++ (db_connect cfg B .obj (db_insert_sql_mem resource data m)).mem.db.host)⟩
            else
              ⟨(db_exec_sql cfg B .obj (db_insert_sql_stmt m.db.type resource data)
                  (db_connect cfg B .obj (db_insert_sql_mem resource data m)).mem).rval,
                (db_disconnect cfg B .obj
                  (db_exec_sql cfg B .obj (db_insert_sql_stmt m.db.type resource data)
                    (db_connect cfg B .obj (db_insert_sql_mem resource data m)).mem).mem).mem⟩
          else db_exec_sql cfg B .obj (db_insert_sql_stmt m.db.type resource data)
            (db_insert_sql_mem resource data m) :=
  rfl

/-! ## The connection lifecycle of `db_exec_sql` -/

/-- C2, at a failing input: a `pg` descriptor with a `NULL` handle, drivers
whose connect sets the handle, whose disconnect clears it and whose exec
leaves it unchanged. `db_exec_sql` connects and executes, and returns the
exec driver's result without disconnecting: the handle is not `NULL` after
the call. -/
theorem db_exec_sql_leaves_connection_open :
    (sample_drivers 0).connect_sets_handle
    ∧ (sample_drivers 0).disconnect_clears_handle
    ∧ (sample_drivers 0).exec_keeps_handle
    ∧ (sample_mem (sample_db "pg" none)).db.conn = none
    ∧ (db_exec_sql Build.full (sample_drivers 0) .obj "SELECT 1"
        (sample_mem (sample_db "pg" none))).rval = 0
    ∧ (db_exec_sql Build.full (sample_drivers 0) .obj "SELECT 1"
        (sample_mem (sample_db "pg" none))).mem.trace
        = [.connect .pg, .exec_sql .pg "SELECT 1"]
    ∧ (db_exec_sql Build.full (sample_drivers 0) .obj "SELECT 1"
        (sample_mem (sample_db "pg" none))).mem.db.conn = some 1 := by
  refine ⟨?_, ?_, ?_, by decide, by decide, by decide, by decide⟩
  · intro b d e
    simp [sample_drivers]
  · intro b d e
    simp [sample_drivers]
  · intro b d sql e
    simp [sample_drivers]

/-- C3: on a descriptor whose handle is not `NULL`, for every type tag, build
and statement, `db_exec_sql` calls no driver but at most one exec driver, so
neither connect nor disconnect; and if the exec drivers do not change the
handle, the handle after the call is the handle before. -/
theorem db_exec_sql_keeps_open_connection (cfg : Build) (B : Drivers ω) (sql : String)
    (m : Mem ω) (h : m.db.conn ≠ none) :
    ((db_exec_sql cfg B .obj sql m).mem.trace = m.trace
      ∨ ∃ b, (db_exec_sql cfg B .obj sql m).mem.trace = m.trace ++ [.exec_sql b sql])
    ∧ ((∀ b d e, (B.exec_sql b d sql e).db.conn = d.conn) →
        (db_exec_sql cfg B .obj sql m).mem.db.conn = m.db.conn
        ∧ (db_exec_sql cfg B .obj sql m).mem.db.conn ≠ none) := by
  have hr : m.reset_error.db.conn ≠ none := h
  have hd : db_exec_sql cfg B .obj sql m = db_exec_sql_dispatch cfg B sql 0 m.reset_error := by
    unfold db_exec_sql
    simp only [if_neg hr]
  rw [hd, db_exec_sql_dispatch_eq]
  cases hb : exec_backend cfg m.reset_error.db.type with
  | none =>
    refine ⟨Or.inl ?_, fun _ => ⟨?_, ?_⟩⟩ <;> simp [Mem.report, Mem.reset_error, h]
  | some b =>
    refine ⟨Or.inr ⟨b, ?_⟩, fun he => ?_⟩
    · simp [Mem.delegate, Mem.reset_error]
    · have := he b m.reset_error.db m.reset_error.env
      simp only [Mem.delegate, this]
      exact ⟨rfl, h⟩

/-- C3, on a `pg` descriptor that holds the handle 7, with drivers whose exec
does not change the handle. -/
theorem db_exec_sql_keeps_open_connection_witness :
    (sample_mem (sample_db "pg" (some 7))).db.conn ≠ none
    ∧ ((db_exec_sql Build.full (sample_drivers 0) .obj "SELECT 1"
          (sample_mem (sample_db "pg" (some 7)))).mem.trace
        = (sample_mem (sample_db "pg" (some 7))).trace
      ∨ ∃ b, (db_exec_sql Build.full (sample_drivers 0) .obj "SELECT 1"
          (sample_mem (sample_db "pg" (some 7)))).mem.trace
        = (sample_mem (sample_db "pg" (some 7))).trace ++ [.exec_sql b "SELECT 1"])
    ∧ (db_exec_sql Build.full (sample_drivers 0) .obj "SELECT 1"
          (sample_mem (sample_db "pg" (some 7)))).mem.db.conn
        = (sample_mem (sample_db "pg" (some 7))).db.conn
    ∧ (db_exec_sql Build.full (sample_drivers 0) .obj "SELECT 1"
          (sample_mem (sample_db "pg" (some 7)))).mem.db.conn ≠ none :=
  ⟨by decide,
   (db_exec_sql_keeps_open_connection Build.full (sample_drivers 0) "SELECT 1"
      (sample_mem (sample_db "pg" (some 7))) (by decide)).1,
   (db_exec_sql_keeps_open_connection Build.full (sample_drivers 0) "SELECT 1"
      (sample_mem (sample_db "pg" (some 7))) (by decide)).2 (fun _ _ _ => rfl)⟩

/-! ## The connection lifecycle of `db_insert_sql` -/

/-- C4: leave-as-found on the relational insert path. For a descriptor of type
`pg`, `my` or `tds`, with drivers whose connect sets the handle on success,
whose disconnect clears it and whose exec leaves it unchanged, `db_insert_sql`
returns with the handle `NULL` exactly when it was `NULL` at entry. On an open
handle it calls at most the exec driver, so it neither connects nor closes. On
a `NULL` handle it calls connect at most once, and when it goes on to the exec
driver it calls disconnect after it, whatever the exec driver returned. -/
theorem db_insert_sql_leave_as_found (cfg : Build) (B : Drivers ω) (resource : String)
    (data : List keyval_t) (m : Mem ω)
    (ht : m.db.type = "pg" ∨ m.db.type = "my" ∨ m.db.type = "tds")
    (hc : B.connect_sets_handle) (hd : B.disconnect_clears_handle)
    (he : B.exec_keeps_handle) :
    ((db_insert_sql cfg B resource data m).mem.db.conn = none ↔ m.db.conn = none)
    ∧ (m.db.conn ≠ none →
        (db_insert_sql cfg B resource data m).mem.db.conn = m.db.conn
        ∧ ((db_insert_sql cfg B resource data m).mem.trace = m.trace
          ∨ ∃ b, (db_insert_sql cfg B resource data m).mem.trace
              = m.trace ++ [.exec_sql b (db_insert_sql_stmt m.db.type resource data)]))
    ∧ (m.db.conn = none →
        (db_insert_sql cfg B resource data m).mem.trace = m.trace
        ∨ (∃ b, (db_insert_sql cfg B resource data m).mem.trace = m.trace ++ [.connect b])
        ∨ ∃ b, (db_insert_sql cfg B resource data m).mem.trace
            = m.trace ++ [.connect b,
                .exec_sql b (db_insert_sql_stmt m.db.type resource data), .disconnect b]) := by
  have hm1 : (db_insert_sql_mem resource data m).db = m.db := rfl
  have hm2 : (db_insert_sql_mem resource data m).trace = m.trace := rfl
  generalize hsql : db_insert_sql_stmt m.db.type resource data = sql
  by_cases hn : m.db.conn = none
  · -- the handle is `NULL` at entry: this call connects
    have key : (db_insert_sql cfg B resource data m).mem.db.conn = none
        ∧ ((db_insert_sql cfg B resource data m).mem.trace = m.trace
          ∨ (∃ b, (db_insert_sql cfg B resource data m).mem.trace = m.trace ++ [.connect b])
          ∨ ∃ b, (db_insert_sql cfg B resource data m).mem.trace
              = m.trace ++ [.connect b, .exec_sql b sql, .disconnect b]) := by
      rw [db_insert_sql_eq, if_pos hn, hsql, db_connect_obj, hm1]
      cases hcb : connect_backend cfg m.db.type with
      | none =>
        simp [Mem.report, Mem.reset_error, hm1, hm2, hn]
      | some b =>
        obtain ⟨hc1, hc2, hc3⟩ := hc b m.db (db_insert_sql_mem resource data m).reset_error.env
        by_cases hrv : (B.connect b m.db (db_insert_sql_mem resource data m).reset_error.env).rval = 0
        · have hopen := hc1 hrv
          simp only [Mem.delegate, hrv, ne_eq, not_true_eq_false, if_false]
          rw [db_exec_sql_of_open _ _ _ _ hopen]
          simp only [hc3, exec_backend_of_connect cfg _ b ht hcb]
          obtain ⟨he1, he2⟩ := he b
            (B.connect b m.db (db_insert_sql_mem resource data m).reset_error.env).db sql
            (Mem.reset_error
              { db := (B.connect b m.db (db_insert_sql_mem resource data m).reset_error.env).db,
                env := (B.connect b m.db (db_insert_sql_mem resource data m).reset_error.env).env,
                trace := (db_insert_sql_mem resource data m).reset_error.trace ++ [.connect b],
                log := (db_insert_sql_mem resource data m).reset_error.log }).env
          rw [db_disconnect_obj]
          simp only [Mem.delegate, he1, he2, hc3, hcb, if_neg hopen]
          refine ⟨hd _ _ _, Or.inr (Or.inr ⟨b, ?_⟩)⟩
          simp [Mem.reset_error, hm2]
        · simp only [Mem.delegate, hrv, ne_eq, not_false_eq_true, if_true]
          refine ⟨?_, Or.inr (Or.inl ⟨b, ?_⟩)⟩
          · simp [Mem.report, hc2 hrv, hn]
          · simp [Mem.report, Mem.reset_error, hm2]
    exact ⟨⟨fun _ => hn, fun _ => key.1⟩, fun h => absurd hn h, fun _ => key.2⟩
  · -- the handle is set at entry: no connect, no disconnect
    have key : (db_insert_sql cfg B resource data m).mem.db.conn = m.db.conn
        ∧ ((db_insert_sql cfg B resource data m).mem.trace = m.trace
          ∨ ∃ b, (db_insert_sql cfg B resource data m).mem.trace
              = m.trace ++ [.exec_sql b sql]) := by
      rw [db_insert_sql_eq, if_neg hn, hsql, db_exec_sql_of_open _ _ _ _ (by rw [hm1]; exact hn), hm1]
      cases hcb : exec_backend cfg m.db.type with
      | none => simp [Mem.report, Mem.reset_error, hm1, hm2]
      | some b =>
        refine ⟨?_, Or.inr ⟨b, ?_⟩⟩
        · simpa [Mem.delegate] using (he b m.db sql _).1
        · simp [Mem.delegate, Mem.reset_error, hm2]
    exact ⟨⟨fun h => absurd (key.1 ▸ h) hn, fun h => absurd h hn⟩, fun _ => key, fun h => absurd h hn⟩

/-- C4, on a `pg` descriptor with a `NULL` handle and drivers whose exec
fails: the connection that `db_insert_sql` opened is closed again, and the
failure of the exec driver is returned. -/
theorem db_insert_sql_leave_as_found_witness :
    ((db_insert_sql Build.full failing_exec_drivers "users" [⟨"name", "Alice"⟩]
        (sample_mem (sample_db "pg" none))).mem.db.conn = none
      ↔ (sample_mem (sample_db "pg" none)).db.conn = none)
    ∧ (db_insert_sql Build.full failing_exec_drivers "users" [⟨"name", "Alice"⟩]
        (sample_mem (sample_db "pg" none))).rval = -1
    ∧ (db_insert_sql Build.full failing_exec_drivers "users" [⟨"name", "Alice"⟩]
        (sample_mem (sample_db "pg" none))).mem.trace
      = [.connect .pg, .exec_sql .pg "INSERT INTO users (name) VALUES ('Alice')",
          .disconnect .pg] :=
  ⟨(db_insert_sql_leave_as_found Build.full failing_exec_drivers "users" [⟨"name", "Alice"⟩]
      (sample_mem (sample_db "pg" none)) (Or.inl rfl)
      (fun _ _ _ => by simp [failing_exec_drivers, sample_drivers])
      (fun _ _ _ => by simp [failing_exec_drivers, sample_drivers])
      (fun _ _ _ _ => by simp [failing_exec_drivers, sample_drivers])).1,
    by decide, by decide⟩

/-! ## Failures of the connect step -/

/-- The return value, descriptor and calls of `db_connect` do not depend on
the error globals, the trace or the log of the memory it starts from. -/
theorem db_connect_frame (cfg : Build) (B : Drivers ω) (m m1 : Mem ω)
    (hdb : m1.db = m.db) (hw : m1.env.world = m.env.world) (htr : m1.trace = m.trace) :
    (db_connect cfg B .obj m1).rval = (db_connect cfg B .obj m).rval
    ∧ (db_connect cfg B .obj m1).mem.db = (db_connect cfg B .obj m).mem.db
    ∧ (db_connect cfg B .obj m1).mem.trace = (db_connect cfg B .obj m).mem.trace := by
  have henv : m1.reset_error.env = m.reset_error.env := by
    simp [Mem.reset_error, hw]
  rw [db_connect_obj, db_connect_obj, hdb, henv]
  cases connect_backend cfg m.db.type <;>
    simp [Mem.delegate, Mem.report, Mem.reset_error, hdb, htr]

/-- The calls of `db_connect`: none, or one connect driver. -/
theorem db_connect_trace (cfg : Build) (B : Drivers ω) (m : Mem ω) :
    (db_connect cfg B .obj m).mem.trace = m.trace
    ∨ ∃ b, (db_connect cfg B .obj m).mem.trace = m.trace ++ [.connect b] := by
  rw [db_connect_obj]
  cases connect_backend cfg m.db.type with
  | none => exact Or.inl rfl
  | some b => exact Or.inr ⟨b, rfl⟩

/-- On an unknown type tag `db_connect` returns -1, calls no driver and leaves
the descriptor as it was. -/
theorem db_connect_unknown (cfg : Build) (B : Drivers ω) (m : Mem ω)
    (h : ¬ known_type m.db.type) :
    (db_connect cfg B .obj m).rval = -1 ∧ (db_connect cfg B .obj m).mem.db = m.db
    ∧ (db_connect cfg B .obj m).mem.trace = m.trace := by
  rw [db_connect_obj, connect_backend_unknown cfg _ h]
  exact ⟨rfl, rfl, rfl⟩

/-- C5: on a descriptor with a `NULL` handle whose connect fails, storing no
handle, and so on every descriptor with a `NULL` handle whose type tag is
unknown, `db_exec_sql` and `db_insert_sql` return -1 with the handle still
`NULL`, and the only driver they have called is the one that `db_connect`
called, if any: no exec and no disconnect. -/
theorem connect_failure_short_circuits (cfg : Build) (B : Drivers ω) (sql resource : String)
    (data : List keyval_t) (m : Mem ω) (hn : m.db.conn = none)
    (hf : ((db_connect cfg B .obj m).rval ≠ 0 ∧ (db_connect cfg B .obj m).mem.db.conn = none)
      ∨ ¬ known_type m.db.type) :
    (db_exec_sql cfg B .obj sql m).rval = -1
    ∧ (db_exec_sql cfg B .obj sql m).mem.db.conn = none
    ∧ (db_exec_sql cfg B .obj sql m).mem.trace = (db_connect cfg B .obj m).mem.trace
    ∧ (db_insert_sql cfg B resource data m).rval = -1
    ∧ (db_insert_sql cfg B resource data m).mem.db.conn = none
    ∧ (db_insert_sql cfg B resource data m).mem.trace = (db_connect cfg B .obj m).mem.trace
    ∧ ((db_connect cfg B .obj m).mem.trace = m.trace
      ∨ ∃ b, (db_connect cfg B .obj m).mem.trace = m.trace ++ [.connect b]) := by
  have hfk : (db_connect cfg B .obj m).rval ≠ 0
      ∧ (db_connect cfg B .obj m).mem.db.conn = none := by
    rcases hf with hf | hu
    · exact hf
    · obtain ⟨u1, u2, _⟩ := db_connect_unknown cfg B m hu
      rw [u1, u2]
      exact ⟨by decide, hn⟩
  obtain ⟨hfail, hkeep⟩ := hfk
  obtain ⟨e1, e2, e3⟩ := db_connect_frame cfg B m m.reset_error rfl rfl rfl
  obtain ⟨i1, i2, i3⟩ := db_connect_frame cfg B m (db_insert_sql_mem resource data m) rfl rfl rfl
  have hr : m.reset_error.db.conn = none := hn
  refine ⟨?_, ?_, ?_, ?_, ?_, ?_, db_connect_trace cfg B m⟩
  · unfold db_exec_sql
    simp only [if_pos hr, e1, ne_eq, hfail, not_false_eq_true, if_true]
  · unfold db_exec_sql
    simp only [if_pos hr, e1, ne_eq, hfail, not_false_eq_true, if_true]
    simpa [Mem.report, e2] using hkeep
  · unfold db_exec_sql
    simp only [if_pos hr, e1, ne_eq, hfail, not_false_eq_true, if_true]
    simpa [Mem.report] using e3
  · rw [db_insert_sql_eq, if_pos hn]
    simp only [i1, ne_eq, hfail, not_false_eq_true, if_true]
  · rw [db_insert_sql_eq, if_pos hn]
    simp only [i1, ne_eq, hfail, not_false_eq_true, if_true]
    simpa [Mem.report, i2] using hkeep
  · rw [db_insert_sql_eq, if_pos hn]
    simp only [i1, ne_eq, hfail, not_false_eq_true, if_true]
    simpa [Mem.report] using i3

/-- C5, on a descriptor of the unknown type `foo` with a `NULL` handle, and on
a `pg` descriptor with a `NULL` handle whose connect driver fails. -/
theorem connect_failure_short_circuits_witness :
    ((db_exec_sql Build.full (sample_drivers 0) .obj "SELECT 1"
        (sample_mem (sample_db "foo" none))).rval = -1
      ∧ (db_insert_sql Build.full (sample_drivers 0) "users" [⟨"name", "Alice"⟩]
        (sample_mem (sample_db "foo" none))).rval = -1
      ∧ (db_insert_sql Build.full (sample_drivers 0) "users" [⟨"name", "Alice"⟩]
        (sample_mem (sample_db "foo" none))).mem.trace = [])
    ∧ ((db_exec_sql Build.full failing_connect_drivers .obj "SELECT 1"
        (sample_mem (sample_db "pg" none))).rval = -1
      ∧ (db_insert_sql Build.full failing_connect_drivers "users" [⟨"name", "Alice"⟩]
        (sample_mem (sample_db "pg" none))).rval = -1
      ∧ (db_insert_sql Build.full failing_connect_drivers "users" [⟨"name", "Alice"⟩]
        (sample_mem (sample_db "pg" none))).mem.trace = [.connect .pg]) :=
  ⟨⟨(connect_failure_short_circuits Build.full (sample_drivers 0) "SELECT 1" "users"
        [⟨"name", "Alice"⟩] (sample_mem (sample_db "foo" none)) rfl
        (Or.inr (by decide))).1,
      (connect_failure_short_circuits Build.full (sample_drivers 0) "SELECT 1" "users"
        [⟨"name", "Alice"⟩] (sample_mem (sample_db "foo" none)) rfl
        (Or.inr (by decide))).2.2.2.1,
      by decide⟩,
    ⟨(connect_failure_short_circuits Build.full failing_connect_drivers "SELECT 1" "users"
        [⟨"name", "Alice"⟩] (sample_mem (sample_db "pg" none)) rfl
        (Or.inl ⟨by decide, by decide⟩)).1,
      (connect_failure_short_circuits Build.full failing_connect_drivers "SELECT 1" "users"
        [⟨"name", "Alice"⟩] (sample_mem (sample_db "pg" none)) rfl
        (Or.inl ⟨by decide, by decide⟩)).2.2.2.1,
      by decide⟩⟩

/-! ## Unknown type tags -/

/-- C6: on a descriptor whose type tag is none of `ldap`, `my`, `pg`, `tds`,
`lmdb`, each of `db_connect`, `db_fetch_all` and `db_insert` returns -1, calls
no driver and leaves the descriptor as it was; `db_fetch_all` leaves its two
out-parameters as they were too. -/
theorem unknown_type_is_rejected (cfg : Build) (B : Drivers ω) (sql resource : String)
    (filter : List field_t) (rows : List row_t) (rowc : Int) (data : List keyval_t)
    (m : Mem ω) (h : ¬ known_type m.db.type) :
    ((db_connect cfg B .obj m).rval = -1
      ∧ (db_connect cfg B .obj m).mem.db = m.db
      ∧ (db_connect cfg B .obj m).mem.trace = m.trace)
    ∧ ((db_fetch_all cfg B .obj sql filter rows rowc m).rval = -1
      ∧ (db_fetch_all cfg B .obj sql filter rows rowc m).mem.db = m.db
      ∧ (db_fetch_all cfg B .obj sql filter rows rowc m).mem.trace = m.trace
      ∧ (db_fetch_all cfg B .obj sql filter rows rowc m).rows = rows
      ∧ (db_fetch_all cfg B .obj sql filter rows rowc m).rowc = rowc)
    ∧ ((db_insert cfg B .obj resource data m).rval = -1
      ∧ (db_insert cfg B .obj resource data m).mem.db = m.db
      ∧ (db_insert cfg B .obj resource data m).mem.trace = m.trace) := by
  have hu := h
  unfold known_type at hu
  simp only [not_or] at hu
  obtain ⟨h1, h2, h3, h4, h5⟩ := hu
  refine ⟨db_connect_unknown cfg B m h, ?_, ?_⟩
  · unfold db_fetch_all
    simp [h1, h2, h3, h4, h5, Mem.report, Mem.reset_error]
  · unfold db_insert
    simp [h1, h2, h3, h4, h5, Mem.report, Mem.reset_error]

/-- C6, on the type tags `PG` and the empty string: matching is
case-sensitive, so neither is known. -/
theorem unknown_type_is_rejected_witness :
    (¬ known_type "PG"
      ∧ (db_connect Build.full (sample_drivers 0) .obj
          (sample_mem (sample_db "PG" none))).rval = -1
      ∧ (db_insert Build.full (sample_drivers 0) .obj "users" [⟨"name", "Alice"⟩]
          (sample_mem (sample_db "PG" none))).rval = -1)
    ∧ (¬ known_type ""
      ∧ (db_connect Build.full (sample_drivers 0) .obj
          (sample_mem (sample_db "" (some 7)))).mem.db = sample_db "" (some 7)
      ∧ (db_fetch_all Build.full (sample_drivers 0) .obj "SELECT 1" [] [] 0
          (sample_mem (sample_db "" (some 7)))).rval = -1) :=
  ⟨⟨by decide,
      (unknown_type_is_rejected Build.full (sample_drivers 0) "SELECT 1" "users" [] [] 0
        [⟨"name", "Alice"⟩] (sample_mem (sample_db "PG" none)) (by decide)).1.1,
      (unknown_type_is_rejected Build.full (sample_drivers 0) "SELECT 1" "users" [] [] 0
        [⟨"name", "Alice"⟩] (sample_mem (sample_db "PG" none)) (by decide)).2.2.1⟩,
    ⟨by decide,
      (unknown_type_is_rejected Build.full (sample_drivers 0) "SELECT 1" "users" [] [] 0
        [⟨"name", "Alice"⟩] (sample_mem (sample_db "" (some 7))) (by decide)).1.2.1,
      (unknown_type_is_rejected Build.full (sample_drivers 0) "SELECT 1" "users" [] [] 0
        [⟨"name", "Alice"⟩] (sample_mem (sample_db "" (some 7))) (by decide)).2.1.1⟩⟩

/-- C7, at a failing input: a descriptor of the unknown type `foo` that holds
the handle 7. `db_exec_sql` prints that the type is invalid, leaves the
descriptor as it was, and returns 0, the value for success. -/
theorem db_exec_sql_unknown_type_returns_zero :
    ¬ known_type "foo"
    ∧ (db_exec_sql Build.full (sample_drivers 0) .obj "SELECT 1"
        (sample_mem (sample_db "foo" (some 7)))).rval = 0
    ∧ (db_exec_sql Build.full (sample_drivers 0) .obj "SELECT 1"
        (sample_mem (sample_db "foo" (some 7)))).mem.db = sample_db "foo" (some 7)
    ∧ (db_exec_sql Build.full (sample_drivers 0) .obj "SELECT 1"
        (sample_mem (sample_db "foo" (some 7)))).mem.trace = []
    ∧ (db_exec_sql Build.full (sample_drivers 0) .obj "SELECT 1"
        (sample_mem (sample_db "foo" (some 7)))).mem.log
      = [(.stderr, "Invalid database type 'foo' passed to db_exec_sql()\n")] := by
  decide

/-- C8 as stated fails: on a descriptor of the unknown type `foo` whose handle
is `NULL`, `db_disconnect` returns 0, not a failure. -/
theorem db_disconnect_unknown_type_null_handle :
    ¬ known_type "foo"
    ∧ (sample_mem (sample_db "foo" none)).db.conn = none
    ∧ (db_disconnect Build.full (sample_drivers 0) .obj
        (sample_mem (sample_db "foo" none))).rval = 0 := by
  decide

/-- C8, amended: on a descriptor whose type tag is unknown, `db_disconnect`
calls no driver and leaves the descriptor, the handle included, as it was; it
returns -1 when the handle is not `NULL` and 0 when the handle is `NULL`. -/
theorem db_disconnect_unknown_type (cfg : Build) (B : Drivers ω) (m : Mem ω)
    (h : ¬ known_type m.db.type) :
    (db_disconnect cfg B .obj m).mem.db = m.db
    ∧ (db_disconnect cfg B .obj m).mem.trace = m.trace
    ∧ (m.db.conn ≠ none → (db_disconnect cfg B .obj m).rval = -1)
    ∧ (m.db.conn = none → (db_disconnect cfg B .obj m).rval = 0) := by
  rw [db_disconnect_obj, connect_backend_unknown cfg _ h]
  by_cases hn : m.db.conn = none
  · simp [hn, Mem.reset_error]
  · simp [hn, Mem.reset_error, Mem.report]

/-- C8 amended, on a descriptor of the unknown type `foo` that holds the
handle 7, and on one whose handle is `NULL`. -/
theorem db_disconnect_unknown_type_witness :
    ((db_disconnect Build.full (sample_drivers 0) .obj
        (sample_mem (sample_db "foo" (some 7)))).rval = -1
      ∧ (db_disconnect Build.full (sample_drivers 0) .obj
        (sample_mem (sample_db "foo" (some 7)))).mem.db = sample_db "foo" (some 7))
    ∧ (db_disconnect Build.full (sample_drivers 0) .obj
        (sample_mem (sample_db "foo" none))).rval = 0 :=
  ⟨⟨(db_disconnect_unknown_type Build.full (sample_drivers 0)
        (sample_mem (sample_db "foo" (some 7))) (by decide)).2.2.1 (by decide),
      (db_disconnect_unknown_type Build.full (sample_drivers 0)
        (sample_mem (sample_db "foo" (some 7))) (by decide)).1⟩,
    (db_disconnect_unknown_type Build.full (sample_drivers 0)
      (sample_mem (sample_db "foo" none)) (by decide)).2.2.2 rfl⟩

/-! ## Backends without an exec driver, and `db_create` -/

/-- C9: on an `ldap` or `lmdb` descriptor with a `NULL` handle, when the
connect succeeds and sets the handle and the disconnect driver clears it,
`db_exec_sql` calls the connect driver and then the disconnect driver of that
backend and no exec driver, and returns, with 0, with the handle `NULL` again. -/
theorem db_exec_sql_closes_on_unsupported (cfg : Build) (B : Drivers ω) (sql : String)
    (m : Mem ω) (ht : m.db.type = "ldap" ∨ m.db.type = "lmdb") (hn : m.db.conn = none)
    (hs : (db_connect cfg B .obj m).rval = 0)
    (hc : B.connect_sets_handle) (hd : B.disconnect_clears_handle) :
    (db_exec_sql cfg B .obj sql m).mem.db.conn = none
    ∧ (∃ b, (db_exec_sql cfg B .obj sql m).mem.trace
        = m.trace ++ [.connect b, .disconnect b])
    ∧ (db_exec_sql cfg B .obj sql m).rval = 0 := by
  have hr : m.reset_error.db.conn = none := hn
  have hs1 : (db_connect cfg B .obj m.reset_error).rval = 0 :=
    (db_connect_frame cfg B m m.reset_error rfl rfl rfl).1.trans hs
  unfold db_exec_sql
  simp only [if_pos hr, hs1, ne_eq, not_true_eq_false, if_false, db_exec_sql_dispatch_eq]
  rw [db_connect_obj] at hs1 ⊢
  simp only [reset_error_db] at hs1 ⊢
  cases hcb : connect_backend cfg m.db.type with
  | none =>
    rw [hcb] at hs1
    simp at hs1
  | some b =>
    rw [hcb] at hs1
    obtain ⟨hc1, _, hc3⟩ := hc b m.db m.reset_error.reset_error.env
    have hopen := hc1 hs1
    simp only [Mem.delegate, hc3, exec_backend_native cfg _ ht, if_true]
    rw [db_disconnect_obj]
    simp only [Mem.report, hc3, hcb, if_neg hopen, Mem.delegate]
    refine ⟨hd _ _ _, ⟨b, ?_⟩, trivial⟩
    simp [Mem.reset_error]

/-- C9, on an `ldap` descriptor with a `NULL` handle. -/
theorem db_exec_sql_closes_on_unsupported_witness :
    (db_exec_sql Build.full (sample_drivers 0) .obj "SELECT 1"
        (sample_mem (sample_db "ldap" none))).mem.db.conn = none
    ∧ (db_exec_sql Build.full (sample_drivers 0) .obj "SELECT 1"
        (sample_mem (sample_db "ldap" none))).mem.trace = [.connect .ldap, .disconnect .ldap] :=
  ⟨(db_exec_sql_closes_on_unsupported Build.full (sample_drivers 0) "SELECT 1"
      (sample_mem (sample_db "ldap" none)) (Or.inl rfl) rfl (by decide)
      (fun _ _ _ => by simp [sample_drivers])
      (fun _ _ _ => by simp [sample_drivers])).1,
    by decide⟩

/-- C10: in a build with the `pg` backend, `db_create` on a descriptor of type
`pg` calls the create driver of `pg` on the descriptor and returns what it
returns; on every other type tag it calls no driver, leaves the descriptor as
it was and returns 0. -/
theorem db_create_delegates_pg_only (cfg : Build) (B : Drivers ω) (m : Mem ω)
    (hpg : cfg.pg = true) :
    (m.db.type = "pg" →
      (db_create cfg B .obj m).rval = (B.create .pg m.db m.reset_error.env).rval
      ∧ (db_create cfg B .obj m).mem.db = (B.create .pg m.db m.reset_error.env).db
      ∧ (db_create cfg B .obj m).mem.trace = m.trace ++ [.create .pg])
    ∧ (m.db.type ≠ "pg" →
      (db_create cfg B .obj m).rval = 0
      ∧ (db_create cfg B .obj m).mem.db = m.db
      ∧ (db_create cfg B .obj m).mem.trace = m.trace) := by
  constructor
  · intro h
    have hr : m.reset_error.db.type = "pg" := h
    unfold db_create
    simp only [hpg, hr, and_self, if_true]
    exact ⟨rfl, rfl, rfl⟩
  · intro h
    unfold db_create
    simp [h, Mem.report, Mem.reset_error]

/-- C10, in the default build: on a `pg` descriptor the result of the create
driver, here -1, is returned; on a `my` descriptor and on one of the unknown
type `foo`, 0 is returned and no driver is called. -/
theorem db_create_delegates_pg_only_witness :
    ((db_create Build.full (sample_drivers (-1)) .obj
        (sample_mem (sample_db "pg" none))).rval = -1
      ∧ (db_create Build.full (sample_drivers (-1)) .obj
        (sample_mem (sample_db "pg" none))).mem.trace = [.create .pg])
    ∧ ((db_create Build.full (sample_drivers (-1)) .obj
        (sample_mem (sample_db "my" none))).rval = 0
      ∧ (db_create Build.full (sample_drivers (-1)) .obj
        (sample_mem (sample_db "my" none))).mem.trace = [])
    ∧ (db_create Build.full (sample_drivers (-1)) .obj
        (sample_mem (sample_db "foo" (some 7)))).rval = 0 :=
  ⟨⟨((db_create_delegates_pg_only Build.full (sample_drivers (-1))
        (sample_mem (sample_db "pg" none)) rfl).1 rfl).1,
      ((db_create_delegates_pg_only Build.full (sample_drivers (-1))
        (sample_mem (sample_db "pg" none)) rfl).1 rfl).2.2⟩,
    ⟨((db_create_delegates_pg_only Build.full (sample_drivers (-1))
        (sample_mem (sample_db "my" none)) rfl).2 (by decide)).1,
      ((db_create_delegates_pg_only Build.full (sample_drivers (-1))
        (sample_mem (sample_db "my" none)) rfl).2 (by decide)).2.2⟩,
    ((db_create_delegates_pg_only Build.full (sample_drivers (-1))
      (sample_mem (sample_db "foo" (some 7))) rfl).2 (by decide)).1⟩

/-! ## Counting key-value pairs -/

/-- The changes of a list with two more keys in front: the first two keys are
compared, then the rest follows. -/
theorem adjacent_changes_cons_cons (a b : String) (l : List String) :
    adjacent_changes (a :: b :: l)
      = (if a ≠ b then 1 else 0) + adjacent_changes (b :: l) := by
  unfold adjacent_changes
  simp only [List.tail_cons, List.zip_cons_cons, List.countP_cons]
  by_cases h : a = b <;> simp [h, Nat.add_comm]

/-- A list has fewer changes than keys. -/
theorem adjacent_changes_le (a : String) (l : List String) :
    adjacent_changes (a :: l) ≤ l.length := by
  induction l generalizing a with
  | nil => simp [adjacent_changes]
  | cons b l ih =>
    rw [adjacent_changes_cons_cons]
    have := ih b
    split <;> simp only [List.length_cons] <;> omega

/-- The loop of `count_keyvals`, when no counter overflows: `total` grows by
the number of pairs and `unique` by the number of changes of key, `last`
counting as the key before the first pair. -/
theorem count_keyvals_loop_eq (data : List keyval_t) (last : String) (total unique : Int)
    (ht : total + data.length ≤ INT_MAX)
    (hu : unique + adjacent_changes (last :: data.map (fun kv => kv.key)) ≤ INT_MAX) :
    count_keyvals_loop last data total unique
      = some (total + data.length,
          unique + adjacent_changes (last :: data.map (fun kv => kv.key))) := by
  induction data generalizing last total unique with
  | nil => simp [count_keyvals_loop, adjacent_changes]
  | cons kv next ih =>
    simp only [List.map_cons, adjacent_changes_cons_cons, List.length_cons] at ht hu ⊢
    have hnn : (0 : Int) ≤ adjacent_changes (kv.key :: next.map (fun kv => kv.key)) :=
      Int.natCast_nonneg _
    have hln : (0 : Int) ≤ next.length := Int.natCast_nonneg _
    push_cast at ht hu ⊢
    unfold count_keyvals_loop
    by_cases h : last = kv.key
    · subst h
      have h1 : int_incr total = some (total + 1) := by
        unfold int_incr
        rw [if_pos (by omega)]
      simp only [ne_eq, not_true_eq_false, if_false, h1, Option.some_bind] at hu ⊢
      rw [ih _ _ _ (by omega) (by simpa using hu)]
      simp
      omega
    · have h1 : int_incr total = some (total + 1) := by
        unfold int_incr
        rw [if_pos (by omega)]
      simp only [ne_eq, h, not_false_eq_true, if_true] at hu ⊢
      have h2 : int_incr unique = some (unique + 1) := by
        unfold int_incr
        rw [if_pos (by omega)]
      simp only [h1, h2, Option.some_bind]
      rw [ih _ _ _ (by omega) (by omega)]
      simp
      omega

/-- The loop of `count_keyvals` overflows when the pairs are more than
`total` can still count. -/
theorem count_keyvals_loop_overflow (data : List keyval_t) (last : String)
    (total unique : Int) (ht : total ≤ INT_MAX) (hover : INT_MAX < total + data.length) :
    count_keyvals_loop last data total unique = none := by
  induction data generalizing last total unique with
  | nil =>
    simp at hover
    omega
  | cons kv next ih =>
    simp only [List.length_cons] at hover
    push_cast at hover
    unfold count_keyvals_loop
    by_cases ht1 : total < INT_MAX
    · have h1 : int_incr total = some (total + 1) := by
        unfold int_incr
        rw [if_pos ht1]
      split
      · cases hun : int_incr unique with
        | none => rfl
        | some u1 =>
          simp only [h1, Option.some_bind]
          exact ih _ _ _ (by omega) (by omega)
      · simp only [h1, Option.some_bind]
        exact ih _ _ _ (by omega) (by omega)
    · have h1 : int_incr total = none := by
        unfold int_incr
        rw [if_neg ht1]
      split
      · cases hun : int_incr unique with
        | none => rfl
        | some u1 => simp [h1]
      · simp [h1]

/-- What `count_keyvals` leaves on a non-empty sequence whose pairs both
counters can count: `total` has grown by the number of pairs and is returned,
and `unique` is one more than the number of changes of key. -/
theorem count_keyvals_eq (data : List keyval_t) (total unique : Int) (e : Env ω)
    (hne : data ≠ []) (hlen : (data.length : Int) ≤ INT_MAX)
    (ht : total + data.length ≤ INT_MAX) :
    count_keyvals data total unique e
      = some ⟨total + data.length, total + data.length,
          1 + adjacent_changes (data.map (fun kv => kv.key)), e.reset_error⟩ := by
  cases data with
  | nil => exact absurd rfl hne
  | cons first next =>
    have hc : adjacent_changes (first.key :: (first :: next).map (fun kv => kv.key))
        = adjacent_changes ((first :: next).map (fun kv => kv.key)) := by
      simp [adjacent_changes_cons_cons]
    have hle := adjacent_changes_le first.key (next.map (fun kv => kv.key))
    simp only [List.length_cons, List.length_map] at hlen hle
    push_cast at hlen
    unfold count_keyvals
    simp only
    rw [count_keyvals_loop_eq _ _ _ _ ht (by rw [hc]; simp only [List.map_cons]; omega), hc]
    rfl

/-- On a sequence with more pairs than `total` can still count,
`count_keyvals` overflows `total`: its behaviour is undefined. -/
theorem count_keyvals_overflow (data : List keyval_t) (total unique : Int) (e : Env ω)
    (ht : total ≤ INT_MAX) (hover : INT_MAX < total + data.length) :
    count_keyvals data total unique e = none := by
  cases data with
  | nil => rfl
  | cons first next =>
    unfold count_keyvals
    simp only
    rw [count_keyvals_loop_overflow _ _ _ _ ht hover]
    rfl

/-- C11 as stated fails: on a sequence of 2147483648 pairs, all with key `a`,
with `total` starting at 0, `count_keyvals` does not return the length,
which no `int` holds: the increment of line 507 overflows `total`. -/
theorem count_keyvals_length_beyond_int :
    count_keyvals (List.replicate 2147483648 ⟨"a", ""⟩) 0 0 sample_env = none :=
  count_keyvals_overflow _ 0 0 sample_env (by decide)
    (by rw [List.length_replicate]; decide)

/-- C11, amended: on a non-empty sequence of at most `INT_MAX` pairs, with
`total` starting at 0, `count_keyvals` returns the number of pairs, stores it
in `total`, and stores in `unique` one more than the number of positions
`i ≥ 1` whose key differs from the key at position `i - 1`. -/
theorem count_keyvals_adjacent (data : List keyval_t) (unique : Int) (e : Env ω)
    (hne : data ≠ []) (hlen : (data.length : Int) ≤ INT_MAX) :
    count_keyvals data 0 unique e
      = some ⟨data.length, data.length,
          1 + adjacent_changes (data.map (fun kv => kv.key)), e.reset_error⟩ := by
  have h := count_keyvals_eq data 0 unique e hne hlen (by omega)
  simpa using h

/-- C11 amended, on the keys `[a, a, b]`, which give total 3 and unique 2,
and on the keys `[a, b, a]`, which give total 3 and unique 3. -/
theorem count_keyvals_adjacent_witness :
    (count_keyvals (sample_keyvals ["a", "a", "b"]) 0 0 sample_env).map
        (fun r => (r.rval, r.total, r.unique)) = some (3, 3, 2)
    ∧ (count_keyvals (sample_keyvals ["a", "b", "a"]) 0 0 sample_env).map
        (fun r => (r.rval, r.total, r.unique)) = some (3, 3, 3) :=
  ⟨(congrArg (Option.map (fun r => (r.rval, r.total, r.unique)))
      (count_keyvals_adjacent (sample_keyvals ["a", "a", "b"]) 0 sample_env
        (by decide) (by decide))).trans (by decide),
   (congrArg (Option.map (fun r => (r.rval, r.total, r.unique)))
      (count_keyvals_adjacent (sample_keyvals ["a", "b", "a"]) 0 sample_env
        (by decide) (by decide))).trans (by decide)⟩

/-- C16 as stated fails: with `total` starting at `INT_MAX`, on a sequence of
one pair, `count_keyvals` does not leave `INT_MAX + 1` in `total`, which no
`int` holds: the increment of line 507 overflows. -/
theorem count_keyvals_total_at_int_max :
    (count_keyvals (sample_keyvals ["a"]) 2147483647 0 sample_env).map
        (fun r => (r.rval, r.total, r.unique)) = none := by
  decide

/-- C16, amended: on a non-empty sequence of `n` pairs, `n` at most `INT_MAX`,
and for every initial `total` with `total + n` at most `INT_MAX`, the final
`total` and the return value are both `total + n`, whatever the initial
`unique`, and the result is the same for every initial `unique`. -/
theorem count_keyvals_accumulates (data : List keyval_t) (total : Int) (e : Env ω)
    (hne : data ≠ []) (hlen : (data.length : Int) ≤ INT_MAX)
    (ht : total + data.length ≤ INT_MAX) :
    ∃ r : CountRet ω, r.total = total + data.length ∧ r.rval = total + data.length
      ∧ ∀ unique : Int, count_keyvals data total unique e = some r :=
  ⟨_, rfl, rfl, fun unique => count_keyvals_eq data total unique e hne hlen ht⟩

/-- C16 amended, on the keys `[a, b]` with `total` starting at 5: the final
`total` is 7 for the initial `unique` 0 and for the initial `unique` 40. -/
theorem count_keyvals_accumulates_witness :
    ∃ r : CountRet Unit, r.total = 7 ∧ r.rval = 7
      ∧ count_keyvals (sample_keyvals ["a", "b"]) 5 0 sample_env = some r
      ∧ count_keyvals (sample_keyvals ["a", "b"]) 5 40 sample_env = some r :=
  (count_keyvals_accumulates (sample_keyvals ["a", "b"]) 5 sample_env
    (by decide) (by decide) (by decide)).elim
    (fun r h => ⟨r, h.1.trans (by decide), h.2.1.trans (by decide), h.2.2 0, h.2.2 40⟩)

/-! ## Changes of key and distinct keys -/

/-- A list with one more key in front is contiguous when the list is and
the occurrences of the new key in the list come first. -/
theorem contiguous_cons (a : String) (l : List String) :
    contiguous (a :: l)
      ↔ contiguous l ∧ ∀ j k : Nat, j < k → l[k]? = some a → l[j]? = some a := by
  constructor
  · intro h
    refine ⟨fun i j k hij hjk x hi hk => ?_, fun j k hjk hk => ?_⟩
    · have := h (i + 1) (j + 1) (k + 1) (by omega) (by omega) x
        (by simpa using hi) (by simpa using hk)
      simpa using this
    · have := h 0 (j + 1) (k + 1) (by omega) (by omega) a (by simp) (by simpa using hk)
      simpa using this
  · rintro ⟨hc, hp⟩ i j k hij hjk x hi hk
    obtain ⟨j, rfl⟩ : ∃ j1, j = j1 + 1 := ⟨j - 1, by omega⟩
    obtain ⟨k, rfl⟩ : ∃ k1, k = k1 + 1 := ⟨k - 1, by omega⟩
    simp only [List.getElem?_cons_succ] at hk ⊢
    cases i with
    | zero =>
      simp only [List.getElem?_cons_zero, Option.some.injEq] at hi
      subst hi
      exact hp j k (by omega) hk
    | succ i =>
      simp only [List.getElem?_cons_succ] at hi
      exact hc i j k (by omega) (by omega) x hi hk

/-- Repeating the first key keeps a list contiguous. -/
theorem contiguous_cons_same (a : String) (l : List String) :
    contiguous (a :: a :: l) ↔ contiguous (a :: l) := by
  rw [contiguous_cons a (a :: l)]
  constructor
  · exact fun h => h.1
  · intro h
    refine ⟨h, fun j k hjk hk => ?_⟩
    cases j with
    | zero => simp
    | succ j => exact h 0 (j + 1) k (by omega) hjk a (by simp) hk

/-- A different key in front keeps a list contiguous when it does not occur
again. -/
theorem contiguous_cons_other (a b : String) (l : List String) (hab : a ≠ b) :
    contiguous (a :: b :: l) ↔ a ∉ l ∧ contiguous (b :: l) := by
  rw [contiguous_cons a (b :: l)]
  constructor
  · rintro ⟨hc, hp⟩
    refine ⟨fun hmem => ?_, hc⟩
    obtain ⟨n, hn⟩ := List.mem_iff_getElem?.mp hmem
    have := hp 0 (n + 1) (by omega) (by simpa using hn)
    simp only [List.getElem?_cons_zero, Option.some.injEq] at this
    exact hab this.symm
  · rintro ⟨hmem, hc⟩
    refine ⟨hc, fun j k hjk hk => ?_⟩
    obtain ⟨k, rfl⟩ : ∃ k1, k = k1 + 1 := ⟨k - 1, by omega⟩
    simp only [List.getElem?_cons_succ] at hk
    exact absurd (List.mem_iff_getElem?.mpr ⟨k, hk⟩) hmem

/-- The keys of a list other than the key before it are at most as many as
the changes of key, and as many exactly when the list, with the key before
it in front, is contiguous. -/
theorem card_erase_le_adjacent_changes (prev : String) (ks : List String) :
    (ks.toFinset.erase prev).card ≤ adjacent_changes (prev :: ks)
    ∧ ((ks.toFinset.erase prev).card = adjacent_changes (prev :: ks)
        ↔ contiguous (prev :: ks)) := by
  induction ks generalizing prev with
  | nil =>
    refine ⟨by simp [adjacent_changes], ?_⟩
    simp only [List.toFinset_nil, Finset.erase_empty, Finset.card_empty, adjacent_changes,
      List.tail_cons, List.zip_nil_right, List.countP_nil, true_iff]
    intro i j k hij hjk x _ hk
    have : k = 0 := by
      by_contra hne
      obtain ⟨k1, rfl⟩ : ∃ k1, k = k1 + 1 := ⟨k - 1, by omega⟩
      simp at hk
    omega
  | cons k ks ih =>
    obtain ⟨ihle, iheq⟩ := ih k
    rw [adjacent_changes_cons_cons, List.toFinset_cons]
    by_cases h : prev = k
    · subst h
      rw [contiguous_cons_same]
      simp only [Finset.erase_insert_eq_erase, ne_eq, not_true_eq_false, if_false, Nat.zero_add]
      exact ⟨ihle, iheq⟩
    · have hkp : k ≠ prev := fun hk => h hk.symm
      rw [contiguous_cons_other prev k ks h, ← iheq]
      have hins : (insert k ks.toFinset).erase prev
          = insert k ((ks.toFinset.erase k).erase prev) := by
        ext x
        simp only [Finset.mem_erase, Finset.mem_insert, List.mem_toFinset]
        constructor
        · rintro ⟨hx, hx2⟩
          by_cases hxk : x = k
          · exact Or.inl hxk
          · rcases hx2 with hx2 | hx2
            · exact absurd hx2 hxk
            · exact Or.inr ⟨hx, hxk, hx2⟩
        · rintro (hx | ⟨hx, _, hx2⟩)
          · exact ⟨by rw [hx]; exact hkp, Or.inl hx⟩
          · exact ⟨hx, Or.inr hx2⟩
      have hnot : k ∉ (ks.toFinset.erase k).erase prev := by simp
      rw [hins, Finset.card_insert_of_not_mem hnot]
      simp only [ne_eq, h, not_false_eq_true, if_true]
      by_cases hmem : prev ∈ ks
      · have hm : prev ∈ ks.toFinset.erase k := by
          simp [Finset.mem_erase, h, hmem]
        have hpos : 0 < (ks.toFinset.erase k).card := Finset.card_pos.mpr ⟨prev, hm⟩
        rw [Finset.card_erase_of_mem hm]
        constructor
        · omega
        · constructor
          · intro heq
            omega
          · rintro ⟨hno, _⟩
            exact absurd hmem hno
      · have hm : prev ∉ ks.toFinset.erase k := by
          simp [Finset.mem_erase, hmem]
        rw [Finset.erase_eq_of_not_mem hm]
        constructor
        · omega
        · constructor
          · intro heq
            exact ⟨hmem, by omega⟩
          · rintro ⟨_, heq⟩
            omega

/-- The distinct keys of a non-empty list are at most one more than the
changes of key, and exactly one more when the list is contiguous. -/
theorem card_toFinset_le_adjacent_changes (k : String) (ks : List String) :
    (k :: ks).toFinset.card ≤ 1 + adjacent_changes (k :: ks)
    ∧ (1 + adjacent_changes (k :: ks) = (k :: ks).toFinset.card ↔ contiguous (k :: ks)) := by
  obtain ⟨hle, heq⟩ := card_erase_le_adjacent_changes k ks
  have hcard : (k :: ks).toFinset.card = (ks.toFinset.erase k).card + 1 := by
    rw [List.toFinset_cons]
    by_cases hk : k ∈ ks.toFinset
    · rw [Finset.insert_eq_of_mem hk, Finset.card_erase_add_one hk]
    · rw [Finset.card_insert_of_not_mem hk, Finset.erase_eq_of_not_mem hk]
  rw [hcard, ← heq]
  constructor
  · omega
  · constructor <;> intro h <;> omega

/-- C17 as stated fails: on a sequence of 2147483648 pairs, all with key `b`,
with `total` starting at 0, `count_keyvals` produces no counts to compare:
the increment of line 507 overflows `total`. -/
theorem count_keyvals_bounds_beyond_int :
    count_keyvals (List.replicate 2147483648 ⟨"b", ""⟩) 0 0 sample_env = none :=
  count_keyvals_overflow _ 0 0 sample_env (by decide)
    (by rw [List.length_replicate]; decide)

/-- C17, amended: on a non-empty sequence of at most `INT_MAX` pairs, with
`total` starting at 0, the `unique` that `count_keyvals` leaves is at least
the number of distinct keys and at most the `total` it leaves, and it is the
number of distinct keys exactly when all occurrences of each key are
contiguous. -/
theorem count_keyvals_unique_bounds (data : List keyval_t) (unique : Int) (e : Env ω)
    (hne : data ≠ []) (hlen : (data.length : Int) ≤ INT_MAX) :
    ∃ r : CountRet ω, count_keyvals data 0 unique e = some r
      ∧ ((data.map (fun kv => kv.key)).toFinset.card : Int) ≤ r.unique
      ∧ r.unique ≤ r.total
      ∧ (r.unique = ((data.map (fun kv => kv.key)).toFinset.card : Int)
          ↔ contiguous (data.map (fun kv => kv.key))) := by
  refine ⟨_, count_keyvals_eq data 0 unique e hne hlen (by omega), ?_⟩
  cases data with
  | nil => exact absurd rfl hne
  | cons first next =>
    simp only [List.map_cons]
    obtain ⟨hle, heq⟩ :=
      card_toFinset_le_adjacent_changes first.key (next.map (fun kv => kv.key))
    have hlt := adjacent_changes_le first.key (next.map (fun kv => kv.key))
    simp only [List.length_map] at hlt
    simp only [List.length_cons]
    push_cast
    refine ⟨by omega, by omega, ?_⟩
    rw [← heq]
    constructor <;> intro h <;> omega

/-- C17 amended, on the keys `[a, b, a]`: two distinct keys, unique 3, total
3, and the occurrences of `a` are not contiguous. -/
theorem count_keyvals_unique_bounds_witness :
    (∃ r : CountRet Unit,
      count_keyvals (sample_keyvals ["a", "b", "a"]) 0 0 sample_env = some r
      ∧ (((sample_keyvals ["a", "b", "a"]).map (fun kv => kv.key)).toFinset.card : Int)
          ≤ r.unique
      ∧ r.unique ≤ r.total
      ∧ (r.unique
          = (((sample_keyvals ["a", "b", "a"]).map (fun kv => kv.key)).toFinset.card : Int)
          ↔ contiguous ((sample_keyvals ["a", "b", "a"]).map (fun kv => kv.key))))
    ∧ ((sample_keyvals ["a", "b", "a"]).map (fun kv => kv.key)).toFinset.card = 2
    ∧ (count_keyvals (sample_keyvals ["a", "b", "a"]) 0 0 sample_env).map
        (fun r => (r.total, r.unique)) = some (3, 3) :=
  ⟨count_keyvals_unique_bounds (sample_keyvals ["a", "b", "a"]) 0 sample_env
      (by decide) (by decide),
    by decide, by decide⟩

/-! ## Lookups in the result model -/

/-- The loop of `db_field` finds a field exactly when some field has the
name; the field found has the name and no field before it has. -/
theorem db_field_loop_spec (fields : List field_t) (fname : String) :
    (db_field_loop fields fname = none ↔ ∀ f ∈ fields, f.fname ≠ fname)
    ∧ ∀ f, db_field_loop fields fname = some f →
        ∃ before after, fields = before ++ f :: after ∧ f.fname = fname
          ∧ ∀ g ∈ before, g.fname ≠ fname := by
  induction fields with
  | nil => simp [db_field_loop]
  | cons g next ih =>
    unfold db_field_loop
    by_cases h : fname = g.fname
    · simp only [if_pos h]
      refine ⟨by simp [h], fun f hf => ?_⟩
      simp only [Option.some.injEq] at hf
      subst hf
      exact ⟨[], next, rfl, h.symm, by simp⟩
    · simp only [if_neg h]
      have hg : g.fname ≠ fname := fun hg => h hg.symm
      refine ⟨by simp [ih.1, hg], fun f hf => ?_⟩
      obtain ⟨before, after, h1, h2, h3⟩ := ih.2 f hf
      refine ⟨g :: before, after, by rw [h1]; rfl, h2, ?_⟩
      intro x hx
      rcases List.mem_cons.mp hx with hx | hx
      · rw [hx]; exact hg
      · exact h3 x hx

/-- C12: `db_field` returns a field exactly when some field of the row has
the name; the field returned carries the name, and it is the first such in
row order: no field before it has the name. Otherwise it returns `NULL`. -/
theorem db_field_first_match (row : row_t) (fname : String) (e : Env ω) :
    ((∃ f, (db_field row fname e).1 = some f) ↔ ∃ f ∈ row.fields, f.fname = fname)
    ∧ (∀ f, (db_field row fname e).1 = some f →
        ∃ before after, row.fields = before ++ f :: after ∧ f.fname = fname
          ∧ ∀ g ∈ before, g.fname ≠ fname)
    ∧ ((db_field row fname e).1 = none ↔ ∀ f ∈ row.fields, f.fname ≠ fname) := by
  obtain ⟨h1, h2⟩ := db_field_loop_spec row.fields fname
  refine ⟨?_, h2, h1⟩
  show (∃ f, db_field_loop row.fields fname = some f) ↔ _
  constructor
  · rintro ⟨f, hf⟩
    obtain ⟨before, after, hb, hn, _⟩ := h2 f hf
    exact ⟨f, by rw [hb]; simp, hn⟩
  · rintro ⟨f, hf, hn⟩
    cases hr : db_field_loop row.fields fname with
    | none => exact absurd hn (h1.mp hr f hf)
    | some g => exact ⟨g, rfl⟩

/-- C12, on the row with fields `[(a, 1), (b, 2)]`: the lookup of `b` returns
the field with value `2`, the lookup of `c` returns `NULL`. -/
theorem db_field_first_match_witness :
    (db_field ⟨[⟨"a", "1"⟩, ⟨"b", "2"⟩]⟩ "b" sample_env).1 = some ⟨"b", "2"⟩
    ∧ (∃ before after, [(⟨"a", "1"⟩ : field_t), ⟨"b", "2"⟩] = before ++ ⟨"b", "2"⟩ :: after
        ∧ (⟨"b", "2"⟩ : field_t).fname = "b" ∧ ∀ g ∈ before, g.fname ≠ "b")
    ∧ (db_field ⟨[⟨"a", "1"⟩, ⟨"b", "2"⟩]⟩ "c" sample_env).1 = none :=
  ⟨by decide,
    (db_field_first_match ⟨[⟨"a", "1"⟩, ⟨"b", "2"⟩]⟩ "b" sample_env).2.1 ⟨"b", "2"⟩
      (by decide),
    (db_field_first_match ⟨[⟨"a", "1"⟩, ⟨"b", "2"⟩]⟩ "c" sample_env).2.2.mpr (by decide)⟩

/-- The loop of `db_get` finds a descriptor exactly when some descriptor has
the alias; the one found has the alias and none before it has. -/
theorem db_get_loop_spec (dbs : List db_t) (alias_ : String) :
    (db_get_loop dbs alias_ = none ↔ ∀ d ∈ dbs, d.alias_ ≠ alias_)
    ∧ ∀ d, db_get_loop dbs alias_ = some d →
        ∃ before after, dbs = before ++ d :: after ∧ d.alias_ = alias_
          ∧ ∀ g ∈ before, g.alias_ ≠ alias_ := by
  induction dbs with
  | nil => simp [db_get_loop]
  | cons g next ih =>
    unfold db_get_loop
    by_cases h : alias_ = g.alias_
    · simp only [if_pos h]
      refine ⟨by simp [h], fun d hd => ?_⟩
      simp only [Option.some.injEq] at hd
      subst hd
      exact ⟨[], next, rfl, h.symm, by simp⟩
    · simp only [if_neg h]
      have hg : g.alias_ ≠ alias_ := fun hg => h hg.symm
      refine ⟨by simp [ih.1, hg], fun d hd => ?_⟩
      obtain ⟨before, after, h1, h2, h3⟩ := ih.2 d hd
      refine ⟨g :: before, after, by rw [h1]; rfl, h2, ?_⟩
      intro x hx
      rcases List.mem_cons.mp hx with hx | hx
      · rw [hx]; exact hg
      · exact h3 x hx

/-- C13: on every collection and alias, the descriptor that `db_get` returns
carries the alias and is the first such in collection order: none before it
has the alias; `db_get` returns `NULL` exactly when no descriptor has the
alias; and the collection is after the call what it was before. -/
theorem db_get_first_match (dbs : List db_t) (alias_ : String) (e : Env ω) :
    (∀ d, (db_get dbs alias_ e).found = some d →
        ∃ before after, dbs = before ++ d :: after ∧ d.alias_ = alias_
          ∧ ∀ g ∈ before, g.alias_ ≠ alias_)
    ∧ ((db_get dbs alias_ e).found = none ↔ ∀ d ∈ dbs, d.alias_ ≠ alias_)
    ∧ (db_get dbs alias_ e).dbs = dbs :=
  ⟨(db_get_loop_spec dbs alias_).2, (db_get_loop_spec dbs alias_).1, rfl⟩

/-- C13, on a collection in which the alias `main` occurs twice, with types
`pg` and `my`: the first, of type `pg`, is returned; and on the empty
collection, where `NULL` is returned. -/
theorem db_get_first_match_witness :
    (db_get [sample_db "ldap" none, sample_db "pg" none, sample_db "my" none]
        "other" sample_env).found = none
    ∧ (db_get [{ sample_db "ldap" none with alias_ := "dir" }, sample_db "pg" none,
        sample_db "my" none] "main" sample_env).found = some (sample_db "pg" none)
    ∧ (∃ before after,
        [{ sample_db "ldap" none with alias_ := "dir" }, sample_db "pg" none,
          sample_db "my" none] = before ++ sample_db "pg" none :: after
        ∧ (sample_db "pg" none).alias_ = "main" ∧ ∀ g ∈ before, g.alias_ ≠ "main")
    ∧ (db_get [] "main" sample_env).found = none :=
  ⟨(db_get_first_match [sample_db "ldap" none, sample_db "pg" none, sample_db "my" none]
      "other" sample_env).2.1.mpr (by decide),
    by decide,
    (db_get_first_match [{ sample_db "ldap" none with alias_ := "dir" }, sample_db "pg" none,
      sample_db "my" none] "main" sample_env).1 (sample_db "pg" none) (by decide),
    by decide⟩

/-! ## The null descriptor -/

/-- C15: on a `NULL` descriptor each of `db_connect`, `db_create`,
`db_disconnect`, `db_exec_sql`, `db_fetch_all` and `db_insert` returns -1,
calls no driver, and leaves `dberrcode` and `dberror` reset to `NULL`. -/
theorem null_descriptor_is_rejected (cfg : Build) (B : Drivers ω) (sql resource : String)
    (filter : List field_t) (rows : List row_t) (rowc : Int) (data : List keyval_t)
    (m : Mem ω) :
    ((db_connect cfg B .null m).rval = -1
      ∧ (db_connect cfg B .null m).mem.trace = m.trace
      ∧ (db_connect cfg B .null m).mem.env.dberrcode = none
      ∧ (db_connect cfg B .null m).mem.env.dberror = none)
    ∧ ((db_create cfg B .null m).rval = -1
      ∧ (db_create cfg B .null m).mem.trace = m.trace
      ∧ (db_create cfg B .null m).mem.env.dberrcode = none
      ∧ (db_create cfg B .null m).mem.env.dberror = none)
    ∧ ((db_disconnect cfg B .null m).rval = -1
      ∧ (db_disconnect cfg B .null m).mem.trace = m.trace
      ∧ (db_disconnect cfg B .null m).mem.env.dberrcode = none
      ∧ (db_disconnect cfg B .null m).mem.env.dberror = none)
    ∧ ((db_exec_sql cfg B .null sql m).rval = -1
      ∧ (db_exec_sql cfg B .null sql m).mem.trace = m.trace
      ∧ (db_exec_sql cfg B .null sql m).mem.env.dberrcode = none
      ∧ (db_exec_sql cfg B .null sql m).mem.env.dberror = none)
    ∧ ((db_fetch_all cfg B .null sql filter rows rowc m).rval = -1
      ∧ (db_fetch_all cfg B .null sql filter rows rowc m).mem.trace = m.trace
      ∧ (db_fetch_all cfg B .null sql filter rows rowc m).mem.env.dberrcode = none
      ∧ (db_fetch_all cfg B .null sql filter rows rowc m).mem.env.dberror = none)
    ∧ ((db_insert cfg B .null resource data m).rval = -1
      ∧ (db_insert cfg B .null resource data m).mem.trace = m.trace
      ∧ (db_insert cfg B .null resource data m).mem.env.dberrcode = none
      ∧ (db_insert cfg B .null resource data m).mem.env.dberror = none) :=
  ⟨⟨rfl, rfl, rfl, rfl⟩, ⟨rfl, rfl, rfl, rfl⟩, ⟨rfl, rfl, rfl, rfl⟩, ⟨rfl, rfl, rfl, rfl⟩,
    ⟨rfl, rfl, rfl, rfl⟩, ⟨rfl, rfl, rfl, rfl⟩⟩

/-! ## The statement does not determine the payload -/

/-- C18: for every resource and type tag two different payloads give the same
statement: the pairs `(a, 1)`, `(b, 2)`, and the one pair whose key is `a,b`
and whose value is `1`, the quote, a comma, the quote and `2`. For a tag other
than `my` that value is `1','2`. -/
theorem db_insert_sql_stmt_not_injective (type resource : String) :
    ((([⟨"a", "1"⟩, ⟨"b", "2"⟩] : List keyval_t)
        ≠ [⟨"a,b", "1" ++ String.singleton (db_insert_sql_quot type) ++ ","
            ++ String.singleton (db_insert_sql_quot type) ++ "2"⟩])
      ∧ db_insert_sql_stmt type resource [⟨"a", "1"⟩, ⟨"b", "2"⟩]
        = db_insert_sql_stmt type resource
            [⟨"a,b", "1" ++ String.singleton (db_insert_sql_quot type) ++ ","
              ++ String.singleton (db_insert_sql_quot type) ++ "2"⟩])
    ∧ (type ≠ "my" →
        db_insert_sql_stmt type resource [⟨"a", "1"⟩, ⟨"b", "2"⟩]
          = db_insert_sql_stmt type resource [⟨"a,b", "1','2"⟩]) := by
  have hk : "a" ++ "," ++ "b" = "a,b" := by decide
  have heq : db_insert_sql_stmt type resource [⟨"a", "1"⟩, ⟨"b", "2"⟩]
      = db_insert_sql_stmt type resource
          [⟨"a,b", "1" ++ String.singleton (db_insert_sql_quot type) ++ ","
            ++ String.singleton (db_insert_sql_quot type) ++ "2"⟩] := by
    simp only [db_insert_sql_stmt, db_insert_sql_loop, Option.map_some', fmt_s, hk,
      String.append_assoc]
  refine ⟨⟨by simp, heq⟩, fun hmy => ?_⟩
  have hq : String.singleton (db_insert_sql_quot type) = "'" := by
    unfold db_insert_sql_quot
    rw [if_neg hmy]
    rfl
  have hv : "1" ++ "'" ++ "," ++ "'" ++ "2" = "1','2" := by decide
  rw [heq, hq, hv]

/-- C18, for the resource `users` and the tag `pg`: both payloads give
`INSERT INTO users (a,b) VALUES ('1','2')`. -/
theorem db_insert_sql_stmt_not_injective_witness :
    db_insert_sql_stmt "pg" "users" [⟨"a", "1"⟩, ⟨"b", "2"⟩]
        = db_insert_sql_stmt "pg" "users" [⟨"a,b", "1','2"⟩]
    ∧ db_insert_sql_stmt "pg" "users" [⟨"a,b", "1','2"⟩]
        = "INSERT INTO users (a,b) VALUES ('1','2')"
    ∧ ([⟨"a", "1"⟩, ⟨"b", "2"⟩] : List keyval_t) ≠ [⟨"a,b", "1','2"⟩] :=
  ⟨(db_insert_sql_stmt_not_injective "pg" "users").2 (by decide), by decide, by decide⟩

/-! ## Disconnecting twice -/

/-- C19: on a descriptor whose handle is `NULL`, whatever its type tag,
`db_disconnect` returns 0, calls no driver and leaves the descriptor as it
was. So when the disconnect drivers clear the handle, a second
`db_disconnect` after one that returned 0 returns 0, calls no driver and
leaves the descriptor as the first call left it. -/
theorem db_disconnect_null_handle (cfg : Build) (B : Drivers ω) (m : Mem ω) :
    (m.db.conn = none →
      (db_disconnect cfg B .obj m).rval = 0
      ∧ (db_disconnect cfg B .obj m).mem.db = m.db
      ∧ (db_disconnect cfg B .obj m).mem.trace = m.trace)
    ∧ (B.disconnect_clears_handle → (db_disconnect cfg B .obj m).rval = 0 →
      (db_disconnect cfg B .obj (db_disconnect cfg B .obj m).mem).rval = 0
      ∧ (db_disconnect cfg B .obj (db_disconnect cfg B .obj m).mem).mem.db
          = (db_disconnect cfg B .obj m).mem.db
      ∧ (db_disconnect cfg B .obj (db_disconnect cfg B .obj m).mem).mem.trace
          = (db_disconnect cfg B .obj m).mem.trace) := by
  have hnull : ∀ m1 : Mem ω, m1.db.conn = none →
      (db_disconnect cfg B .obj m1).rval = 0
      ∧ (db_disconnect cfg B .obj m1).mem.db = m1.db
      ∧ (db_disconnect cfg B .obj m1).mem.trace = m1.trace := by
    intro m1 h1
    rw [db_disconnect_obj, if_pos h1]
    exact ⟨rfl, rfl, rfl⟩
  refine ⟨hnull m, fun hd hs => hnull _ ?_⟩
  rw [db_disconnect_obj] at hs ⊢
  by_cases hn : m.db.conn = none
  · rw [if_pos hn]
    exact hn
  · rw [if_neg hn] at hs ⊢
    cases hcb : connect_backend cfg m.db.type with
    | none =>
      rw [hcb] at hs
      simp at hs
    | some b => exact hd _ _ _

/-- C19, on a descriptor of the unknown type `foo` with a `NULL` handle, and
on a `pg` descriptor that holds the handle 7 and is disconnected twice. -/
theorem db_disconnect_null_handle_witness :
    (db_disconnect Build.full (sample_drivers 0) .obj
        (sample_mem (sample_db "foo" none))).rval = 0
    ∧ (db_disconnect Build.full (sample_drivers 0) .obj
        (db_disconnect Build.full (sample_drivers 0) .obj
          (sample_mem (sample_db "pg" (some 7)))).mem).rval = 0
    ∧ (db_disconnect Build.full (sample_drivers 0) .obj
        (db_disconnect Build.full (sample_drivers 0) .obj
          (sample_mem (sample_db "pg" (some 7)))).mem).mem.trace = [.disconnect .pg] :=
  ⟨((db_disconnect_null_handle Build.full (sample_drivers 0)
      (sample_mem (sample_db "foo" none))).1 rfl).1,
    ((db_disconnect_null_handle Build.full (sample_drivers 0)
      (sample_mem (sample_db "pg" (some 7)))).2
        (fun _ _ _ => by simp [sample_drivers]) (by decide)).1,
    by decide⟩

/-! ## The routing of `db_insert` -/

/-- The calls of `db_disconnect`: none, or one disconnect driver. -/
theorem db_disconnect_trace (cfg : Build) (B : Drivers ω) (m : Mem ω) :
    (db_disconnect cfg B .obj m).mem.trace = m.trace
    ∨ ∃ b, (db_disconnect cfg B .obj m).mem.trace = m.trace ++ [.disconnect b] := by
  rw [db_disconnect_obj]
  by_cases hn : m.db.conn = none
  · rw [if_pos hn]
    exact Or.inl rfl
  · rw [if_neg hn]
    cases connect_backend cfg m.db.type with
    | none => exact Or.inl rfl
    | some b => exact Or.inr ⟨b, rfl⟩

/-- The calls of `db_exec_sql`, whatever the drivers do: connects,
disconnects, and execs that are handed the statement. -/
theorem db_exec_sql_calls (cfg : Build) (B : Drivers ω) (sql : String) (m : Mem ω) :
    ∃ calls, (db_exec_sql cfg B .obj sql m).mem.trace = m.trace ++ calls
      ∧ ∀ c ∈ calls, c.on_sql_path sql := by
  by_cases hn : m.db.conn = none
  · have hr : m.reset_error.db.conn = none := hn
    unfold db_exec_sql
    simp only [if_pos hr]
    have hct : ∃ pre, (db_connect cfg B .obj m.reset_error).mem.trace = m.trace ++ pre
        ∧ ∀ c ∈ pre, c.on_sql_path sql := by
      rcases db_connect_trace cfg B m.reset_error with h | ⟨b, h⟩
      · exact ⟨[], by simpa using h, by simp⟩
      · refine ⟨[.connect b], h, ?_⟩
        intro c hc
        rw [List.mem_singleton.mp hc]
        exact Or.inl ⟨b, rfl⟩
    obtain ⟨pre, hpre, hall⟩ := hct
    by_cases hrv : (db_connect cfg B .obj m.reset_error).rval = 0
    · simp only [hrv, ne_eq, not_true_eq_false, if_false, db_exec_sql_dispatch_eq]
      cases exec_backend cfg (db_connect cfg B .obj m.reset_error).mem.db.type with
      | none =>
        simp only [if_true]
        rcases db_disconnect_trace cfg B ((db_connect cfg B .obj m.reset_error).mem.report
          .stderr ("Invalid database type '"
            ++ (db_connect cfg B .obj m.reset_error).mem.db.type
            ++ "' passed to db_exec_sql()\n")) with h | ⟨b, h⟩
        · exact ⟨pre, by rw [h]; exact hpre, hall⟩
        · refine ⟨pre ++ [.disconnect b], ?_, ?_⟩
          · rw [h, ← List.append_assoc, ← hpre]
            rfl
          · intro c hc
            rcases List.mem_append.mp hc with hc | hc
            · exact hall c hc
            · rw [List.mem_singleton.mp hc]
              exact Or.inr (Or.inl ⟨b, rfl⟩)
      | some b =>
        refine ⟨pre ++ [.exec_sql b sql], ?_, ?_⟩
        · simp only [Mem.delegate, hpre, List.append_assoc]
        · intro c hc
          rcases List.mem_append.mp hc with hc | hc
          · exact hall c hc
          · rw [List.mem_singleton.mp hc]
            exact Or.inr (Or.inr ⟨b, rfl⟩)
    · simp only [ne_eq, hrv, not_false_eq_true, if_true]
      exact ⟨pre, hpre, hall⟩
  · rw [db_exec_sql_of_open _ _ _ _ hn]
    cases exec_backend cfg m.db.type with
    | none => exact ⟨[], by simp [Mem.report, Mem.reset_error], by simp⟩
    | some b =>
      refine ⟨[.exec_sql b sql], rfl, ?_⟩
      intro c hc
      rw [List.mem_singleton.mp hc]
      exact Or.inr (Or.inr ⟨b, rfl⟩)

/-- The calls of `db_insert_sql`, whatever the drivers do: connects,
disconnects, and execs that are handed the statement built. -/
theorem db_insert_sql_calls (cfg : Build) (B : Drivers ω) (resource : String)
    (data : List keyval_t) (m : Mem ω) :
    ∃ calls, (db_insert_sql cfg B resource data m).mem.trace = m.trace ++ calls
      ∧ ∀ c ∈ calls, c.on_sql_path (db_insert_sql_stmt m.db.type resource data) := by
  rw [db_insert_sql_eq]
  generalize db_insert_sql_stmt m.db.type resource data = sql
  have hm2 : (db_insert_sql_mem resource data m).trace = m.trace := rfl
  generalize db_insert_sql_mem resource data m = m1 at hm2
  by_cases hn : m.db.conn = none
  · rw [if_pos hn]
    have hct : ∃ pre, (db_connect cfg B .obj m1).mem.trace = m.trace ++ pre
        ∧ ∀ c ∈ pre, c.on_sql_path sql := by
      rcases db_connect_trace cfg B m1 with h | ⟨b, h⟩
      · exact ⟨[], by rw [h, hm2]; simp, by simp⟩
      · refine ⟨[.connect b], by rw [h, hm2], ?_⟩
        intro c hc
        rw [List.mem_singleton.mp hc]
        exact Or.inl ⟨b, rfl⟩
    obtain ⟨pre, hpre, hall⟩ := hct
    by_cases hrv : (db_connect cfg B .obj m1).rval = 0
    · simp only [hrv, ne_eq, not_true_eq_false, if_false]
      obtain ⟨mid, hmid, hallm⟩ := db_exec_sql_calls cfg B sql (db_connect cfg B .obj m1).mem
      rcases db_disconnect_trace cfg B
        (db_exec_sql cfg B .obj sql (db_connect cfg B .obj m1).mem).mem with h | ⟨b, h⟩
      · refine ⟨pre ++ mid, by rw [h, hmid, hpre, List.append_assoc], ?_⟩
        intro c hc
        rcases List.mem_append.mp hc with hc | hc
        · exact hall c hc
        · exact hallm c hc
      · refine ⟨pre ++ mid ++ [.disconnect b], ?_, ?_⟩
        · rw [h, hmid, hpre]
          simp only [List.append_assoc]
        · intro c hc
          rcases List.mem_append.mp hc with hc | hc
          · rcases List.mem_append.mp hc with hc | hc
            · exact hall c hc
            · exact hallm c hc
          · rw [List.mem_singleton.mp hc]
            exact Or.inr (Or.inl ⟨b, rfl⟩)
    · simp only [ne_eq, hrv, not_false_eq_true, if_true]
      exact ⟨pre, hpre, hall⟩
  · rw [if_neg hn]
    obtain ⟨mid, hmid, hallm⟩ := db_exec_sql_calls cfg B sql m1
    exact ⟨mid, by rw [hmid, hm2], hallm⟩

/-- A backend selected by `db_exec_sql` is a relational one that is compiled
in, and `db_connect` selects it too. -/
theorem exec_backend_some (cfg : Build) (type : String) (b : Backend)
    (h : exec_backend cfg type = some b) :
    (cfg.pg = true ∨ cfg.my = true ∨ cfg.tds = true)
    ∧ (type = "pg" ∨ type = "my" ∨ type = "tds")
    ∧ connect_backend cfg type = some b := by
  unfold exec_backend at h
  split_ifs at h with h1 h2 h3
  · obtain ⟨hc, ht⟩ := h1
    subst ht
    simp only [Option.some.injEq] at h
    subst h
    exact ⟨Or.inl hc, Or.inl rfl, by simp [connect_backend, hc]⟩
  · obtain ⟨hc, ht⟩ := h2
    subst ht
    simp only [Option.some.injEq] at h
    subst h
    exact ⟨Or.inr (Or.inl hc), Or.inr (Or.inl rfl), by simp [connect_backend, hc]⟩
  · obtain ⟨hc, ht⟩ := h3
    subst ht
    simp only [Option.some.injEq] at h
    subst h
    exact ⟨Or.inr (Or.inr hc), Or.inr (Or.inr rfl), by simp [connect_backend, hc]⟩

/-- C14: `db_insert` routes by type tag. On a tag `pg`, `my` or `tds` whose
backend `b` is compiled in, it is `db_insert_sql`: every driver call it makes
is a connect, a disconnect or an exec that is handed the statement built from
the resource and payload, never a native insert; on an open handle it calls
the exec driver of `b` once and returns its result; on a `NULL` handle, when
the connect driver succeeds, sets the handle and keeps the type tag, it calls
the connect and the exec driver of `b` and returns the result of the exec.
On a tag `ldap` or `lmdb` whose backend is compiled in, it calls the insert
driver of that backend with the resource and payload and returns its result,
and it neither logs a statement nor calls an exec driver. -/
theorem db_insert_routes (cfg : Build) (B : Drivers ω) (resource : String)
    (data : List keyval_t) (m : Mem ω) :
    (∀ b, exec_backend cfg m.db.type = some b →
      db_insert cfg B .obj resource data m = db_insert_sql cfg B resource data m.reset_error
      ∧ (∃ calls, (db_insert cfg B .obj resource data m).mem.trace = m.trace ++ calls
          ∧ ∀ c ∈ calls, c.on_sql_path (db_insert_sql_stmt m.db.type resource data))
      ∧ (m.db.conn ≠ none →
          (db_insert cfg B .obj resource data m).rval
            = (B.exec_sql b m.db (db_insert_sql_stmt m.db.type resource data)
                m.reset_error.env).rval
          ∧ (db_insert cfg B .obj resource data m).mem.trace
            = m.trace ++ [.exec_sql b (db_insert_sql_stmt m.db.type resource data)])
      ∧ (m.db.conn = none →
          (B.connect b m.db m.reset_error.env).rval = 0 →
          (B.connect b m.db m.reset_error.env).db.conn ≠ none →
          (B.connect b m.db m.reset_error.env).db.type = m.db.type →
          (db_insert cfg B .obj resource data m).rval
            = (B.exec_sql b (B.connect b m.db m.reset_error.env).db
                (db_insert_sql_stmt m.db.type resource data)
                (B.connect b m.db m.reset_error.env).env.reset_error).rval
          ∧ ∃ tail, (db_insert cfg B .obj resource data m).mem.trace
              = m.trace ++ .connect b
                :: .exec_sql b (db_insert_sql_stmt m.db.type resource data) :: tail
            ∧ (tail = [] ∨ ∃ b1, tail = [.disconnect b1])))
    ∧ (∀ b, b = .ldap ∨ b = .lmdb → m.db.type = b.tag →
      connect_backend cfg m.db.type = some b →
      (db_insert cfg B .obj resource data m).rval
        = (B.insert b m.db resource data m.reset_error.env).rval
      ∧ (db_insert cfg B .obj resource data m).mem.db
        = (B.insert b m.db resource data m.reset_error.env).db
      ∧ (db_insert cfg B .obj resource data m).mem.trace
        = m.trace ++ [.insert b resource data]
      ∧ (db_insert cfg B .obj resource data m).mem.log = m.log) := by
  constructor
  · intro b hb
    obtain ⟨hsql, ht, hcb⟩ := exec_backend_some cfg _ b hb
    have hroute : db_insert cfg B .obj resource data m
        = db_insert_sql cfg B resource data m.reset_error := by
      have hc : (cfg.pg = true ∨ cfg.my = true ∨ cfg.tds = true)
          ∧ (m.reset_error.db.type = "pg" ∨ m.reset_error.db.type = "my"
            ∨ m.reset_error.db.type = "tds") := ⟨hsql, ht⟩
      unfold db_insert
      simp only [if_pos hc]
    rw [hroute]
    refine ⟨rfl, db_insert_sql_calls cfg B resource data m.reset_error, ?_, ?_⟩
    · intro hn
      have hn1 : (db_insert_sql_mem resource data m.reset_error).db.conn ≠ none := hn
      have hn0 : ¬ m.reset_error.db.conn = none := hn
      rw [db_insert_sql_eq, if_neg hn0, db_exec_sql_of_open _ _ _ _ hn1]
      have hb1 : exec_backend cfg (db_insert_sql_mem resource data m.reset_error).db.type
          = some b := hb
      rw [hb1]
      exact ⟨rfl, rfl⟩
    · intro hn hrv hopen htype
      have hn0 : m.reset_error.db.conn = none := hn
      have hcb1 : connect_backend cfg (db_insert_sql_mem resource data m.reset_error).db.type
          = some b := hcb
      have hrv1 : (B.connect b (db_insert_sql_mem resource data m.reset_error).db
          (db_insert_sql_mem resource data m.reset_error).reset_error.env).rval = 0 := hrv
      rw [db_insert_sql_eq, if_pos hn0, db_connect_obj, hcb1]
      simp only [Mem.delegate, hrv1, ne_eq, not_true_eq_false, if_false]
      rw [db_exec_sql_of_open _ _ _ _ hopen]
      have hb2 : exec_backend cfg
          (B.connect b (db_insert_sql_mem resource data m.reset_error).db
            (db_insert_sql_mem resource data m.reset_error).reset_error.env).db.type
          = some b := by
        rw [← hb]
        exact congrArg (exec_backend cfg) htype
      simp only [hb2, Mem.delegate]
      refine ⟨rfl, ?_⟩
      have key : ∀ M : Mem ω,
          M.trace = m.trace ++ [.connect b,
            .exec_sql b (db_insert_sql_stmt m.reset_error.db.type resource data)] →
          ∃ tail, (db_disconnect cfg B .obj M).mem.trace
              = m.trace ++ .connect b
                :: .exec_sql b (db_insert_sql_stmt m.reset_error.db.type resource data) :: tail
            ∧ (tail = [] ∨ ∃ b1, tail = [.disconnect b1]) := by
        intro M hM
        rcases db_disconnect_trace cfg B M with h | ⟨b1, h⟩
        · exact ⟨[], by rw [h, hM], Or.inl rfl⟩
        · exact ⟨[.disconnect b1], by rw [h, hM]; simp, Or.inr ⟨b1, rfl⟩⟩
      exact key _ (by simp [Mem.reset_error, db_insert_sql_mem, Mem.report])
  · intro b hb ht hcb
    have h1 : ¬ ((cfg.pg = true ∨ cfg.my = true ∨ cfg.tds = true)
        ∧ (m.reset_error.db.type = "pg" ∨ m.reset_error.db.type = "my"
          ∨ m.reset_error.db.type = "tds")) := by
      intro h
      have h2 : m.db.type = "pg" ∨ m.db.type = "my" ∨ m.db.type = "tds" := h.2
      rw [ht] at h2
      rcases hb with hb | hb <;> subst hb <;> exact absurd h2 (by decide)
    unfold connect_backend at hcb
    rw [ht] at hcb
    unfold db_insert
    rcases hb with hb | hb
    · subst hb
      have hc : cfg.ldap = true ∧ m.reset_error.db.type = "ldap" := by
        refine ⟨?_, ht⟩
        simp [Backend.tag] at hcb
        exact hcb
      simp only [if_neg h1, if_pos hc]
      exact ⟨rfl, rfl, rfl, rfl⟩
    · subst hb
      have hc : cfg.lmdb = true ∧ m.reset_error.db.type = "lmdb" := by
        refine ⟨?_, ht⟩
        simp [Backend.tag] at hcb
        exact hcb
      have h3 : ¬ (cfg.ldap = true ∧ m.reset_error.db.type = "ldap") := by
        intro h
        have h4 : m.db.type = "ldap" := h.2
        rw [ht] at h4
        exact absurd h4 (by decide)
      simp only [if_neg h1, if_neg h3, if_pos hc]
      exact ⟨rfl, rfl, rfl, rfl⟩

/-- C14, in the default build with drivers whose exec returns 5 and whose
insert returns 9: on a `pg` descriptor that holds the handle 7 the exec
driver is handed the statement built and 5 is returned; on an `ldap`
descriptor the insert driver is handed the resource and payload and 9 is
returned. -/
theorem db_insert_routes_witness :
    ((db_insert Build.full (result_drivers 5 9) .obj "users" [⟨"name", "Alice"⟩]
        (sample_mem (sample_db "pg" (some 7)))).rval = 5
      ∧ (db_insert Build.full (result_drivers 5 9) .obj "users" [⟨"name", "Alice"⟩]
        (sample_mem (sample_db "pg" (some 7)))).mem.trace
        = [.exec_sql .pg "INSERT INTO users (name) VALUES ('Alice')"])
    ∧ ((db_insert Build.full (result_drivers 5 9) .obj "users" [⟨"name", "Alice"⟩]
        (sample_mem (sample_db "ldap" none))).rval = 9
      ∧ (db_insert Build.full (result_drivers 5 9) .obj "users" [⟨"name", "Alice"⟩]
        (sample_mem (sample_db "ldap" none))).mem.trace
        = [.insert .ldap "users" [⟨"name", "Alice"⟩]]) :=
  ⟨⟨((((db_insert_routes Build.full (result_drivers 5 9) "users" [⟨"name", "Alice"⟩]
        (sample_mem (sample_db "pg" (some 7)))).1 .pg (by decide)).2.2.1
          (by decide)).1).trans (by decide),
      by decide⟩,
    ⟨(((db_insert_routes Build.full (result_drivers 5 9) "users" [⟨"name", "Alice"⟩]
        (sample_mem (sample_db "ldap" none))).2 .ldap (Or.inl rfl) (by decide)
          (by decide)).1).trans (by decide),
      by decide⟩⟩

end Gladdb
